import Mathlib

/-!
Verification development for the netbox-sdn-controller reconciliation engine.

The Python engine (sdnmanager/sdn_manager.py, utils.py, models.py, choices.py)
is shallowly embedded below.  External collaborators (the Django ORM repository
and the controller REST API) are modelled as explicit query-oracle functions
passed in as arguments, matching the specification's stance that the
persistence layer's query mechanics are an abstract inventory repository.
Machine integers are Nat; Python-falsy string/None values are collapsed to
"" / Option.none with explicit truthiness predicates.
-/

namespace SdnCtl

/-- Contiguous-sublist test on character lists. -/
def listInfix (sub : List Char) : List Char → Bool
  | [] => sub.isEmpty
  | c :: cs => sub.isPrefixOf (c :: cs) || listInfix sub cs

/-- Python substring test: `sub in s`.  True iff `sub` occurs contiguously in `s`. -/
def strContains (s sub : String) : Bool :=
  listInfix sub.data s.data

/-- Python str.lower (ASCII; controller names are ASCII). -/
def pyLower (s : String) : String :=
  String.mk (s.data.map Char.toLower)

/-- Split a character list at every occurrence of `sep` (Python str.split(sep)
for a one-character separator; the engine only splits on "," and "."). -/
def splitChar (sep : Char) : List Char → List (List Char)
  | [] => [[]]
  | c :: cs =>
    let rest := splitChar sep cs
    if c == sep then [] :: rest
    else
      match rest with
      | [] => [[c]]
      | r :: rs => (c :: r) :: rs

/-- Python str.split for a one-character separator, on Strings. -/
def pySplit (s : String) (sep : Char) : List String :=
  (splitChar sep s.data).map String.mk

/-- Python str.strip (whitespace trim). -/
def pyStrip (s : String) : String :=
  String.mk (((s.data.dropWhile Char.isWhitespace).reverse.dropWhile Char.isWhitespace).reverse)

/-- Python s[-n:]. -/
def strTakeRight (s : String) (n : Nat) : String :=
  String.mk ((s.data.reverse.take n).reverse)

/-- Decimal value of a digit list (callers guarantee the list is all digits). -/
def digitsToNat (l : List Char) : Nat :=
  l.foldl (fun a c => a * 10 + (c.toNat - 48)) 0

/-- Python int(s) for the strings the engine feeds it: value when `s` is a
nonempty digit string (int() raises otherwise; modelled as 0). -/
def pyInt (s : String) : Nat :=
  if s.data ≠ [] ∧ s.data.all Char.isDigit then digitsToNat s.data else 0

/-- Stable insertion of `x` after every element strictly below it. -/
def insertByLt {α : Type} (lt : α → α → Bool) (x : α) : List α → List α
  | [] => [x]
  | y :: ys => if lt y x then y :: insertByLt lt x ys else x :: y :: ys

/-- Stable sort by a strict comparison (Python sorted is stable). -/
def sortByLt {α : Type} (lt : α → α → Bool) : List α → List α
  | [] => []
  | x :: xs => insertByLt lt x (sortByLt lt xs)

/-- Join strings with a separator (Python sep.join). -/
def joinWith (sep : String) : List String → String
  | [] => ""
  | [x] => x
  | x :: y :: rest => x ++ sep ++ joinWith sep (y :: rest)

/-- Python truthiness of a string value (None is collapsed to ""). -/
def strTruthy (s : String) : Bool := s ≠ ""

/-- utils.mask_to_cidr helper: bin(n).count('1'), the number of 1 bits of n. -/
def popcount (n : Nat) : Nat :=
  (Nat.toDigits 2 n).count '1'

/-- utils.mask_to_cidr: dotted-decimal mask to "/<prefix length>" by summing the
set bits of each octet.  A non-numeric octet raises in Python; it is modelled
as contributing the bits of 0. -/
def mask_to_cidr (ipv4_mask : String) : String :=
  let cidr := ((pySplit ipv4_mask '.').map (fun o => popcount (pyInt o))).sum
  "/" ++ toString cidr

/-- One attempt of the Python regex `\D+(\d+)/(\d+)` anchored at the head of `l`:
a maximal nonempty run of non-digits, a maximal nonempty run of digits (group 1),
a literal '/', then a maximal nonempty run of digits (group 2).  The character
classes are disjoint, so greedy matching with backtracking reduces to maximal
runs. -/
def ddAttempt (l : List Char) : Option (Nat × Nat) :=
  match l with
  | [] => none
  | c :: _ =>
    if c.isDigit then none
    else
      let rest1 := l.dropWhile (fun ch => ¬ ch.isDigit)
      let d1 := rest1.takeWhile Char.isDigit
      let rest2 := rest1.dropWhile Char.isDigit
      if d1.isEmpty then none
      else
        match rest2 with
        | '/' :: rest3 =>
          let d2 := rest3.takeWhile Char.isDigit
          if d2.isEmpty then none
          else some (digitsToNat d1, digitsToNat d2)
        | _ => none

/-- Leftmost-match search for `\D+(\d+)/(\d+)` (re.search semantics):
try an attempt at every position, earliest success wins. -/
def ddSearch : List Char → Option (Nat × Nat)
  | [] => none
  | c :: cs =>
    match ddAttempt (c :: cs) with
    | some g => some g
    | none => ddSearch cs

/-- utils.is_valid_interface: names containing "appgigabitethernet"
(case-insensitively) are never valid; otherwise, if the name matches
`\D+(\d+)/(\d+)`, it is valid iff group 1 is 0 or, failing that, group 2 is 0;
names without such a match are valid. -/
def is_valid_interface (interface_name : String) : Bool :=
  if strContains (pyLower interface_name) "appgigabitethernet" then
    false
  else
    match ddSearch interface_name.data with
    | some (g1, g2) => if g1 == 0 then true else g2 == 0
    | none => true

/-- Case-insensitive literal prefix match (`lit` is given lowercase); returns
the remainder of the input on success. -/
def ciPrefix : List Char → List Char → Option (List Char)
  | [], rest => some rest
  | _ :: _, [] => none
  | a :: as, b :: bs => if a == b.toLower then ciPrefix as bs else none

/-- Case-sensitive literal prefix match; returns the remainder on success. -/
def csPrefix (lit l : List Char) : Option (List Char) :=
  if lit.isPrefixOf l then some (l.drop lit.length) else none

/-- One attempt of regex `(W1|W2) (\d+)` (IGNORECASE) at the head of `l`:
one of the literal words, then the digit group (maximal, nonempty).  The
trailing space is part of each word in `words`. -/
def tryWordNum (w : List Char) (l : List Char) : Option (List Char) :=
  match ciPrefix w l with
  | some rest =>
    let d := rest.takeWhile Char.isDigit
    if d.isEmpty then none else some d
  | none => none

/-- Leftmost-match search for `(W1|W2) (\d+)` with IGNORECASE. -/
def wordNumSearch (words : List (List Char)) : List Char → Option (List Char)
  | [] => none
  | c :: cs =>
    match words.findSome? (fun w => tryWordNum w (c :: cs)) with
    | some d => some d
    | none => wordNumSearch words cs

/-- utils.extract_chassis_number with display_as_string=True (the engine's only
call form): regex search `(Switch|Chassis) (\d+)` IGNORECASE, group 2. -/
def extract_chassis_number (name : String) : Option String :=
  (wordNumSearch ["switch ".data, "chassis ".data] name.data).map String.mk

/-- Python regex `\w`: word character. -/
def isWordChar (c : Char) : Bool := c.isAlphanum || c == '_'

/-- One attempt of `\w+\d+/(\d+)/\d+(?:/\d+)?` at the head of `l`.  Since `\d`
is a subset of `\w`, backtracking reduces to: the maximal word-character run
here (length ≥ 2, ending in a digit), then '/', the digit group (maximal,
nonempty), then '/', then at least one digit. -/
def slotPatAttempt (l : List Char) : Option (List Char) :=
  match l with
  | [] => none
  | c :: _ =>
    if ¬ isWordChar c then none
    else
      let run := l.takeWhile isWordChar
      let rest := l.dropWhile isWordChar
      if 2 ≤ run.length ∧ ((run.getLast?.map Char.isDigit).getD false : Bool) then
        match rest with
        | '/' :: r2 =>
          let d := r2.takeWhile Char.isDigit
          let r3 := r2.dropWhile Char.isDigit
          if d.isEmpty then none
          else
            match r3 with
            | '/' :: r4 =>
              if ((r4.head?.map Char.isDigit).getD false : Bool) then some d else none
            | _ => none
        | _ => none
      else none

/-- Leftmost-match search for `\w+\d+/(\d+)/\d+(?:/\d+)?`. -/
def slotPatSearch : List Char → Option (List Char)
  | [] => none
  | c :: cs =>
    match slotPatAttempt (c :: cs) with
    | some d => some d
    | none => slotPatSearch cs

/-- utils.extract_slot_or_module_number with display_as_string=True: regex
`(Slot|Module) (\d+)` IGNORECASE first, else the interface-style pattern
`\w+\d+/(\d+)/\d+(?:/\d+)?` (second number of a "Gi1/9/32"-like name). -/
def extract_slot_or_module_number (name : String) : Option String :=
  match wordNumSearch ["slot ".data, "module ".data] name.data with
  | some d => some (String.mk d)
  | none => (slotPatSearch name.data).map String.mk

/-- One attempt of regex `SPA subslot (\d+)/([1-9]\d*)` at the head of `l`. -/
def spaAttempt (l : List Char) : Option (List Char × List Char) :=
  match csPrefix "SPA subslot ".data l with
  | some rest =>
    let d1 := rest.takeWhile Char.isDigit
    let r2 := rest.dropWhile Char.isDigit
    if d1.isEmpty then none
    else
      match r2 with
      | '/' :: r3 =>
        match r3 with
        | c :: _ => if c.isDigit ∧ c ≠ '0' then some (d1, r3.takeWhile Char.isDigit) else none
        | [] => none
      | _ => none
  | none => none

/-- Leftmost-match search for `SPA subslot (\d+)/([1-9]\d*)`. -/
def spaSearch : List Char → Option (List Char × List Char)
  | [] => none
  | c :: cs =>
    match spaAttempt (c :: cs) with
    | some g => some g
    | none => spaSearch cs

/-- utils.extract_position: trailing digit run of a module-bay name. -/
def extract_position (module_bay_name : String) : String :=
  String.mk ((module_bay_name.data.reverse.takeWhile Char.isDigit).reverse)

/-- Anchored match of `^\D*(\d+)/` against an interface name: leading
non-digits, then the digit group (maximal, nonempty), then '/'. -/
def stackIndexPrefix (name : List Char) : Option String :=
  let rest := name.dropWhile (fun c => ¬ c.isDigit)
  let d := rest.takeWhile Char.isDigit
  let r2 := rest.dropWhile Char.isDigit
  if d ≠ [] ∧ r2.head? == some '/' then some (String.mk d) else none

/-- utils.netbox_stack_position of a device, from its interface names: the
sorted deduplicated numeric prefixes, "1" when more than 4 of them, "0"
dropped when accompanied, joined with ",". -/
def netbox_stack_position (names : List String) : String :=
  let index_list := names.foldl
    (fun acc n =>
      match stackIndexPrefix n.data with
      | some p => if acc.contains p then acc else acc ++ [p]
      | none => acc) []
  let sorted := sortByLt (fun a b => pyInt a < pyInt b) index_list
  if 4 < sorted.length then "1"
  else
    let final := if sorted.contains "0" ∧ 1 < sorted.length then sorted.erase "0" else sorted
    joinWith "," final

example : extract_chassis_number "Switch 2 - Power Supply A" = some "2" := by decide
example : extract_chassis_number "Power Supply" = none := by decide
example : extract_slot_or_module_number "Slot 3 Linecard" = some "3" := by decide
example : extract_slot_or_module_number "Te1/3/1" = some "3" := by decide
example : extract_slot_or_module_number "Power Supply" = none := by decide
example : netbox_stack_position ["GigabitEthernet1/0/1", "GigabitEthernet2/0/1", "Vlan100"]
    = "1,2" := by decide
example : mask_to_cidr "255.255.255.0" = "/24" := by decide
example : mask_to_cidr "255.255.255.252" = "/30" := by decide

example : is_valid_interface "AppGigabitEthernet1/0/1" = false := by decide
example : is_valid_interface "GigabitEthernet0/1" = true := by decide
example : is_valid_interface "TenGigabitEthernet1/0/3" = true := by decide
example : is_valid_interface "TenGigabitEthernet2/1/4" = false := by decide
example : is_valid_interface "Loopback0" = true := by decide

/-! ## Data model

The Django models and the controller's raw records, as plain structures.
Foreign keys are ids (Nat); IP addresses are their CIDR strings; Python
None/"" falsy values are Option.none / "".
-/

/-- choices.DevicePrototypeStatusChoices. -/
inductive SyncStatus
  | discovered
  | imported
  | deleted
  deriving DecidableEq, Repr, Inhabited

/-- One controller-reported interface record (the fields the engine reads). -/
structure IfaceData where
  interfaceType : String
  speed : Option Nat
  description : Option String
  duplex : Option String
  macAddress : Option String
  portMode : Option String
  ipv4Address : Option String
  ipv4Mask : Option String
  deriving DecidableEq, Repr, Inhabited

/-- One controller-reported module record as stored in raw_data["modules"]. -/
structure ModuleBayData where
  partNumber : String
  serialNumber : String
  description : Option String
  deriving DecidableEq, Repr, Inhabited

/-- The prototype's raw_data snapshot (the parts the engine reads back). -/
structure RawData where
  managementIpAddress : Option String
  interfaces : List (String × IfaceData)
  modules : List (String × ModuleBayData)
  deriving DecidableEq, Repr, Inhabited

/-- models.SdnControllerDevicePrototype. -/
structure Prototype where
  serial : String
  sdn_hostname : String
  sdn_management_ip : Option String
  primary_ip4 : Option String
  matching_netbox_device : Option Nat
  related_netbox_device : Option Nat
  sdn_device_type : String
  device_type : Option Nat
  sdn_role : String
  stack_info : List (String × Nat)
  stack_index : String
  role : Option Nat
  raw_data : RawData
  sdn_controller : Nat
  instance_uuid : String
  family : String
  site : Option Nat
  tenant : Option Nat
  score : Nat
  sync_status : SyncStatus
  deriving DecidableEq, Repr, Inhabited

/-- A NetBox inventory Device (the attributes the engine reads/writes).
site/role are DB-required in NetBox; Option keeps lookups total. -/
structure NbDevice where
  name : String
  serial : String
  primary_ip4 : Option String
  site : Option Nat
  tenant : Option Nat
  role : Option Nat
  device_type : Option Nat
  deriving DecidableEq, Repr, Inhabited

/-- A NetBox inventory Interface.  isTemplate caches the repository query
utils.is_device_type_template (a lookup over the device-type's interface
templates, outside the engine). -/
structure NbIface where
  device : Nat
  name : String
  itype : String
  hasModule : Bool
  hasCable : Bool
  isTemplate : Bool
  speed : Option Nat
  description : Option String
  duplex : Option String
  deriving DecidableEq, Repr, Inhabited

/-- The abstract inventory repository state the engine reads and writes. -/
structure Inventory where
  devices : List (Nat × NbDevice)
  interfaces : List NbIface
  moduleBays : List (Nat × String)
  deriving DecidableEq, Repr, Inhabited

/-- Raw controller device record as returned by get_device_list. -/
structure RawDevice where
  id : String
  hostname : String
  serialNumber : String
  platformId : String
  type' : String
  family : String
  role : String
  managementIpAddress : Option String
  instanceUuid : String
  errorCode : Option String
  deriving DecidableEq, Repr, Inhabited

/-- One synthetic per-unit record produced by the device splitter (the raw
record plus the attributes split_device_list sets on each copy). -/
structure SplitUnit extends RawDevice where
  rank : Nat
  total_serial : Nat
  is_multiple : Bool
  stack_info : List (String × Nat)
  deriving DecidableEq, Repr, Inhabited

/-- utils.element_list_to_dict: key each element by a selected field. -/
def element_list_to_dict {α : Type} (l : List α) (key : α → String) : List (String × α) :=
  l.map (fun e => (key e, e))

/-- Python dict lookup on an assoc list built by repeated assignment
(later keys win, hence the reverse). -/
def dictLookup {α : Type} (d : List (String × α)) (k : String) : Option α :=
  (d.reverse.find? (fun p => p.1 == k)).map (fun p => p.2)

/-! ## Device splitter (SdnManager.split_device_list) -/

/-- The unit record built for serial `s` (at position `i` of the serial list)
inside split_device_list's serial branch. -/
def mkSplitUnit (d : RawDevice) (hostname : String) (serials platform_ids : List String)
    (chassis_index : List (String × Nat)) (i : Nat) (s : String) : SplitUnit :=
  let stack_number := (dictLookup chassis_index (pyStrip s)).getD 0
  { id := d.id
    hostname := if 1 < serials.length then hostname ++ "-" ++ toString stack_number else hostname
    serialNumber := pyStrip s
    platformId := pyStrip ((platform_ids.get? i).getD "")
    type' := d.type'
    family := d.family
    role := d.role
    managementIpAddress := if 1 < stack_number then none else d.managementIpAddress
    instanceUuid := d.instanceUuid
    errorCode := d.errorCode
    rank := stack_number
    total_serial := serials.length
    is_multiple := 1 < serials.length
    stack_info := chassis_index }

/-- The per-serial unit loop of split_device_list's serial branch.  Returns
none where Python would raise (a serial missing from the chassis index, or
fewer platform ids than serials). -/
def split_serial_units (d : RawDevice) (hostname : String)
    (serials platform_ids : List String)
    (chassis_index : List (String × Nat)) : Option (List SplitUnit) :=
  if serials.all (fun s => (dictLookup chassis_index (pyStrip s)).isSome)
     ∧ serials.length ≤ platform_ids.length then
    some (serials.enum.map
      (fun p => mkSplitUnit d hostname serials platform_ids chassis_index p.1 p.2))
  else none

/-- SdnManager.split_device_list, per raw device.  `getChassisIndex` and
`noSerialIndexes` stand for the controller API calls (stack/chassis detail);
`prototype_uuid_list` is the optional import-time uuid filter ([] = unset,
Python-falsy). -/
def split_one (getChassisIndex : String → List (String × Nat))
    (noSerialIndexes : String → List Nat)
    (prototype_uuid_list : List String)
    (d : RawDevice) : Option (List SplitUnit) :=
  if strContains (pyLower d.type') "nexus" then some []
  else if prototype_uuid_list ≠ [] ∧ ¬ prototype_uuid_list.contains d.id then some []
  else
    let hostname := (pySplit d.hostname '.').headD ""
    if strTruthy d.serialNumber then
      let serials := pySplit d.serialNumber ','
      let chassis_index :=
        if 1 < serials.length then getChassisIndex d.id
        else [(pyStrip (serials.headD ""), 1)]
      let platform_ids := pySplit d.platformId ','
      split_serial_units d hostname serials platform_ids chassis_index
    else
      let switch_indexes := noSerialIndexes d.id
      some (switch_indexes.map (fun k =>
        { id := d.id
          hostname := if 1 < switch_indexes.length then hostname ++ "-" ++ toString k else hostname
          serialNumber := d.serialNumber
          platformId := d.platformId
          type' := d.type'
          family := d.family
          role := d.role
          managementIpAddress := if 1 < k then none else d.managementIpAddress
          instanceUuid := d.instanceUuid
          errorCode := d.errorCode
          rank := if 1 < switch_indexes.length then k else 1
          total_serial := if 1 < switch_indexes.length then switch_indexes.length else 1
          is_multiple := 1 < switch_indexes.length
          stack_info := [] }))

/-- SdnManager.split_device_list over the whole fetched device list. -/
def split_device_list (getChassisIndex : String → List (String × Nat))
    (noSerialIndexes : String → List Nat)
    (prototype_uuid_list : List String)
    (device_list : List RawDevice) : Option (List SplitUnit) :=
  match device_list with
  | [] => some []
  | d :: rest =>
    match split_one getChassisIndex noSerialIndexes prototype_uuid_list d,
          split_device_list getChassisIndex noSerialIndexes prototype_uuid_list rest with
    | some us, some vs => some (us ++ vs)
    | _, _ => none

/-! ## Module position resolver (SdnManager.extract_module_positions) -/

/-- One merged linecard/supervisor-card detail entry (keyed by serialno). -/
structure CardDetail where
  switchno : Option String
  slotno : Option String
  deriving DecidableEq, Repr, Inhabited

/-- One raw module record from the controller's get_modules. -/
structure ApiModule where
  name : String
  serialNumber : String
  switchnumber : Option String
  slotnumber : Option String
  dnac_name : Option String
  deriving DecidableEq, Repr, Inhabited

/-- Python truthy-and-isdigit test on an optional string field. -/
def digitTruthy : Option String → Bool
  | some s => s ≠ "" ∧ s.data ≠ [] ∧ s.data.all Char.isDigit
  | none => false

/-- The per-module body of SdnManager.extract_module_positions: resolve
switch/slot numbers from the card index, the "SPA subslot s/n" pattern, or
chassis/slot name patterns (with the slot-1 default), then rename to
"Switch s Module m" when both are known. -/
def transform_module (allcardsdict : List (String × CardDetail)) (is_multiple : Bool)
    (total_serial : Nat) (num_modules : Nat) (m : ApiModule) : ApiModule :=
  let numbers : Option String × Option String :=
    match dictLookup allcardsdict m.serialNumber with
    | some card =>
      let switchnumber : String :=
        match card.switchno with
        | some s => if s ≠ "" ∧ s.data.all Char.isDigit then s else "1"
        | none => "1"
      if digitTruthy card.slotno then (some switchnumber, card.slotno)
      else if strContains m.name "SPA subslot " then
        match spaSearch m.name.data with
        | some (g1, g2) => (some (String.mk g1), some (String.mk g2))
        | none => (some switchnumber, none)
      else (some switchnumber, none)
    | none =>
      let switchnumber := if ¬ is_multiple then some "1" else extract_chassis_number m.name
      let slotnumber := extract_slot_or_module_number m.name
      let slotnumber :=
        if switchnumber.isSome ∧ slotnumber.isNone ∧ total_serial = num_modules
        then some "1" else slotnumber
      (switchnumber, slotnumber)
  let switchnumber := numbers.1
  let slotnumber := numbers.2
  { m with
    dnac_name := some m.name
    slotnumber := match slotnumber with | some s => some s | none => m.slotnumber
    switchnumber := match switchnumber with | some s => some s | none => m.switchnumber
    name :=
      match switchnumber, slotnumber with
      | some sw, some sl => "Switch " ++ sw ++ " Module " ++ sl
      | _, _ => m.name }

/-- SdnManager.extract_module_positions: drop modules with short serials,
then resolve positions per module.  `allcardsdict` is the merged
linecard+supervisor-card index fetched from the controller. -/
def extract_module_positions (allcardsdict : List (String × CardDetail)) (is_multiple : Bool)
    (total_serial : Nat) (apimodules : List ApiModule) : List ApiModule :=
  let modules := apimodules.filter (fun m => 3 < m.serialNumber.length)
  modules.map (transform_module allcardsdict is_multiple total_serial modules.length)

/-! ## Identity matcher, scorer and prototype upsert (SdnManager.process_prototype)

The Django ORM queries issued by process_prototype are modelled as an
explicit oracle record (the spec treats the persistence layer's query
mechanics as an abstract inventory repository).  Each resolution stage of
the Python function is a named definition, in source order.
-/

/-- The repository/configuration queries process_prototype issues. -/
structure Queries where
  deviceBySerial : String → Option (Nat × NbDevice)
  deviceByName : String → Option (Nat × NbDevice)
  deviceByPrimaryIp : String → Option (Nat × NbDevice)
  deviceByNameContains : String → Option (Nat × NbDevice)
  deviceTypeByModel : String → Option Nat
  deviceTypeByPart : String → Option Nat
  ipStartsWith : String → Option String
  siteFromPrefix : String → Option Nat
  siteByFacility : String → Option Nat
  roleByFacility : String → Option Nat
  regexFacility : String → String → Option String

/-- models.SdnController, the fields process_prototype reads. -/
structure SdnControllerCfg where
  id : Nat
  sdn_type : String
  default_tenant : Option Nat
  has_regex_template : Bool

/-- The per-unit input of process_prototype: the split unit plus the
interface/module dictionaries attached by sync_sdn_controller_devices and
the management interface's ipv4Mask (raw_data["managementIpAddressInterface"]),
when one was found. -/
structure ProtoInput extends SplitUnit where
  interfaces : List (String × IfaceData)
  modules : List (String × ModuleBayData)
  managementIpMask : Option String
  deriving DecidableEq, Repr, Inhabited

/-- hostname = prototype.hostname.split(".")[0]. -/
def resolved_hostname (inp : ProtoInput) : String :=
  (pySplit inp.hostname '.').headD ""

/-- sdn_management_ip: the reported management IP, with the management
interface's dotted mask appended as a CIDR suffix when known. -/
def resolved_management_ip (inp : ProtoInput) : Option String :=
  match inp.managementIpAddress with
  | none => none
  | some ip =>
    match inp.managementIpMask with
    | some mask => some (ip ++ mask_to_cidr mask)
    | none => some ip

/-- matching_netbox_device after the "-1" rename correction: the device with
identical serial; renamed with a "-1" suffix when the controller hostname
carries one, the device name does not, and the renamed name is free. -/
def matching_device (q : Queries) (inp : ProtoInput) : Option (Nat × NbDevice) :=
  let hostname := resolved_hostname inp
  match q.deviceBySerial inp.serialNumber with
  | some (i, dv) =>
    if strTakeRight hostname 2 = "-1" ∧ strTakeRight dv.name 2 ≠ "-1" then
      let rename := dv.name ++ "-1"
      if (q.deviceByName rename).isNone then some (i, { dv with name := rename })
      else some (i, dv)
    else some (i, dv)
  | none => none

/-- device_type: DeviceType by model, else by part number. -/
def resolved_device_type (q : Queries) (inp : ProtoInput) : Option Nat :=
  match q.deviceTypeByModel inp.platformId with
  | some t => some t
  | none => q.deviceTypeByPart inp.platformId

/-- primary_ip4 (as its address string): the IPAddress whose address starts
with the management IP, created with that address when absent.  none iff no
management IP was reported. -/
def resolved_primary_ip4 (q : Queries) (inp : ProtoInput) : Option String :=
  match resolved_management_ip inp with
  | none => none
  | some mip =>
    match q.ipStartsWith mip with
    | some found => some found
    | none => some mip

/-- site resolved from the prefix containing the management IP (None when no
management IP was reported). -/
def site_from_ip (q : Queries) (inp : ProtoInput) : Option Nat :=
  match resolved_management_ip inp with
  | none => none
  | some mip =>
    match resolved_primary_ip4 q inp with
    | some ip => q.siteFromPrefix ip
    | none => q.siteFromPrefix ((pySplit mip '/').headD "")

/-- related_netbox_device cascade: by hostname (only when no matching device),
else by primary IP, else by hostname containment. -/
def related_device (q : Queries) (inp : ProtoInput) : Option (Nat × NbDevice) :=
  let hostname := resolved_hostname inp
  let related0 :=
    if (matching_device q inp).isNone ∧ strTruthy hostname then q.deviceByName hostname
    else none
  let related1 :=
    match related0 with
    | some r => some r
    | none =>
      match resolved_primary_ip4 q inp with
      | some ip => q.deviceByPrimaryIp ip
      | none => none
  match related1 with
  | some r => some r
  | none => q.deviceByNameContains hostname

/-- The serial-adoption step: when only a related device exists, the serial is
reported, and the related device has no serial, adopt the serial and promote
the related device to matching.  Returns (matching, related). -/
def devices_after_adoption (q : Queries) (inp : ProtoInput) :
    Option (Nat × NbDevice) × Option (Nat × NbDevice) :=
  match matching_device q inp, related_device q inp with
  | none, some (ri, rd) =>
    if strTruthy inp.serialNumber ∧ rd.serial = "" then
      let rd2 := { rd with serial := inp.serialNumber }
      (some (ri, rd2), some (ri, rd2))
    else (none, some (ri, rd))
  | m, r => (m, r)

/-- matching_netbox_device after adoption. -/
def matching_final (q : Queries) (inp : ProtoInput) : Option (Nat × NbDevice) :=
  (devices_after_adoption q inp).1

/-- related_netbox_device after adoption. -/
def related_final (q : Queries) (inp : ProtoInput) : Option (Nat × NbDevice) :=
  (devices_after_adoption q inp).2

/-- The final site: the matching device's site when one exists, else the
prefix-derived site, else the regex-template facility fallback. -/
def site_resolved (q : Queries) (ctl : SdnControllerCfg) (inp : ProtoInput) : Option Nat :=
  let site1 :=
    match matching_final q inp with
    | some (_, dv) => dv.site
    | none => site_from_ip q inp
  if site1.isNone ∧ ctl.has_regex_template then
    match (if strTruthy (resolved_hostname inp) then q.regexFacility "site" (resolved_hostname inp) else none) with
    | some fac => if strTruthy fac then q.siteByFacility fac else site1
    | none => site1
  else site1

/-- The final tenant: the matching device's tenant when set, else the
controller's default tenant. -/
def tenant_resolved (q : Queries) (ctl : SdnControllerCfg) (inp : ProtoInput) : Option Nat :=
  match matching_final q inp with
  | some (_, dv) => match dv.tenant with | some t => some t | none => ctl.default_tenant
  | none => ctl.default_tenant

/-- The final role: the matching device's role when one exists, else the
regex-template facility fallback (roles cross-referenced by facility against
cisco devices). -/
def role_resolved (q : Queries) (ctl : SdnControllerCfg) (inp : ProtoInput) : Option Nat :=
  let role1 : Option Nat :=
    match matching_final q inp with
    | some (_, dv) => dv.role
    | none => none
  if role1.isNone ∧ ctl.has_regex_template then
    match (if strTruthy (resolved_hostname inp) then q.regexFacility "role" (resolved_hostname inp) else none) with
    | some fac => if strTruthy fac then q.roleByFacility fac else role1
    | none => role1
  else role1

/-- The confidence score: +5 for a matching device, +1 each for serial and
hostname equality against it, then +1 each for a resolved primary IP,
device type and site, accumulated in source order. -/
def score_computed (q : Queries) (ctl : SdnControllerCfg) (inp : ProtoInput) : Nat :=
  let score1 :=
    match matching_final q inp with
    | some (_, dv) =>
      5 + (if inp.serialNumber = dv.serial then 1 else 0)
        + (if resolved_hostname inp = dv.name then 1 else 0)
    | none => 0
  score1 + (if (resolved_primary_ip4 q inp).isSome then 1 else 0)
         + (if (resolved_device_type q inp).isSome then 1 else 0)
         + (if (site_resolved q ctl inp).isSome then 1 else 0)

/-- The SdnControllerDevicePrototype candidate built by process_prototype
(lines building the constructor call), before the upsert.  Its sync_status is
always Discovered. -/
def build_candidate (q : Queries) (ctl : SdnControllerCfg) (inp : ProtoInput) : Prototype :=
  { serial := inp.serialNumber
    sdn_hostname := resolved_hostname inp
    sdn_management_ip := resolved_management_ip inp
    primary_ip4 := resolved_primary_ip4 q inp
    matching_netbox_device := (matching_final q inp).map (fun p => p.1)
    related_netbox_device := (related_final q inp).map (fun p => p.1)
    sdn_device_type := inp.platformId
    device_type := resolved_device_type q inp
    sdn_role := inp.role
    stack_info := inp.stack_info
    stack_index := pyStrip (toString inp.rank)
    role := role_resolved q ctl inp
    raw_data :=
      { managementIpAddress := inp.managementIpAddress
        interfaces := inp.interfaces
        modules := inp.modules }
    sdn_controller := ctl.id
    instance_uuid := inp.instanceUuid
    family := inp.family
    site := site_resolved q ctl inp
    tenant := tenant_resolved q ctl inp
    score := score_computed q ctl inp
    sync_status := SyncStatus.discovered }

/-- The upsert tail of process_prototype: insert the candidate when no
prototype holds its (instance_uuid, serial) key; otherwise copy every field of
the candidate onto the stored prototype except id, device_type, primary_ip4,
site, tenant and role.  Returns the new table and the saved prototype. -/
def upsert_prototype (db : List Prototype) (cand : Prototype) : List Prototype × Prototype :=
  match db.find? (fun p => p.instance_uuid == cand.instance_uuid && p.serial == cand.serial) with
  | none => (db ++ [cand], cand)
  | some old =>
    let merged := { cand with
      device_type := old.device_type
      primary_ip4 := old.primary_ip4
      site := old.site
      tenant := old.tenant
      role := old.role }
    (db.map (fun p =>
      if p.instance_uuid == cand.instance_uuid && p.serial == cand.serial then merged else p),
     merged)

/-- SdnManager.process_prototype: build the candidate and upsert it. -/
def process_prototype (q : Queries) (ctl : SdnControllerCfg) (db : List Prototype)
    (inp : ProtoInput) : List Prototype × Prototype :=
  upsert_prototype db (build_candidate q ctl inp)

/-! ## Deletion detector (SdnManager.check_for_deleted_devices) -/

/-- SdnManager.check_for_deleted_devices: every stored prototype of the
controller whose (instance_uuid, serial) key is absent from the fresh pass's
key set has its sync_status set to Deleted; all other prototypes are left
untouched. -/
def check_for_deleted_devices (sdn_controller : Nat) (prototype_keys : List (String × String))
    (db : List Prototype) : List Prototype :=
  db.map (fun p =>
    if p.sdn_controller == sdn_controller
       ∧ ¬ prototype_keys.contains (p.instance_uuid, p.serial)
    then { p with sync_status := SyncStatus.deleted }
    else p)

/-! ## Validator (SdnManager.validate_prototype) -/

/-- Structured stand-ins for the validation failure messages; each carries the
data the Python f-string interpolates (link targets and names), so message
dedup has the same granularity. -/
inductive VMessage
  | relatedNotMatching (instance_uuid serial : String)
  | missingRequiredField (instance_uuid serial field : String)
  | stackIndexMismatch (instance_uuid serial : String)
  | primaryIpMismatch (instance_uuid serial : String)
  | interfaceNotInPrototype (device : Nat) (iface instance_uuid serial : String)
  | interfaceNotFromModule (device : Nat) (iface instance_uuid serial : String)
  | moduleBayNotInPrototype (device : Nat) (bay instance_uuid serial : String)
  deriving DecidableEq, Repr

/-- validate_prototype's inner log_failure: the check failed, so
prototype_is_ok becomes False; the message is appended only when new. -/
def logFailure (st : Bool × List VMessage) (m : VMessage) : Bool × List VMessage :=
  (false, if m ∈ st.2 then st.2 else st.2 ++ [m])

/-- Run logFailure when the failure condition holds. -/
def checkWhen (c : Bool) (m : VMessage) (st : Bool × List VMessage) : Bool × List VMessage :=
  if c then logFailure st m else st

/-- The six required prototype fields, in source order. -/
def requiredFields : List String :=
  ["sdn_hostname", "role", "device_type", "tenant", "site", "serial"]

/-- Python truthiness of getattr(prototype, field). -/
def fieldTruthy (p : Prototype) : String → Bool
  | "sdn_hostname" => p.sdn_hostname ≠ ""
  | "role" => p.role.isSome
  | "device_type" => p.device_type.isSome
  | "tenant" => p.tenant.isSome
  | "site" => p.site.isSome
  | "serial" => p.serial ≠ ""
  | _ => true

/-- Look a device up in the inventory. -/
def getDev (inv : Inventory) (i : Nat) : Option NbDevice :=
  (inv.devices.find? (fun p => p.1 == i)).map (fun p => p.2)

/-- models.NetBoxDevice.netbox_stack_index: "1" when a prototype matched to
this device exists and is not a virtual chassis (stack_info of length ≤ 1),
else the interface-name-derived stack position. -/
def netbox_stack_index (db : List Prototype) (inv : Inventory) (did : Nat) : String :=
  let position := netbox_stack_position
    ((inv.interfaces.filter (fun i => i.device == did)).map (fun i => i.name))
  match db.find? (fun p => p.matching_netbox_device == some did) with
  | some rp => if ¬ (1 < rp.stack_info.length) then "1" else position
  | none => position

/-- Check 1: a related-but-not-matching device fails validation. -/
def check_related (sp : Prototype) (st : Bool × List VMessage) : Bool × List VMessage :=
  checkWhen (sp.matching_netbox_device.isNone ∧ sp.related_netbox_device.isSome)
    (VMessage.relatedNotMatching sp.instance_uuid sp.serial) st

/-- Check 2: every required field must be truthy, each failure naming the field. -/
def check_required (sp : Prototype) (st : Bool × List VMessage) : Bool × List VMessage :=
  requiredFields.foldl
    (fun st f =>
      checkWhen (¬ fieldTruthy sp f) (VMessage.missingRequiredField sp.instance_uuid sp.serial f) st)
    st

/-- Check 3: the matching device's derived stack index must agree with the
prototype's stack_index (when the derived index is truthy). -/
def check_stack (db : List Prototype) (inv : Inventory) (sp : Prototype)
    (st : Bool × List VMessage) : Bool × List VMessage :=
  match sp.matching_netbox_device with
  | some did =>
    let nsi := netbox_stack_index db inv did
    checkWhen (strTruthy nsi ∧ nsi ≠ sp.stack_index)
      (VMessage.stackIndexMismatch sp.instance_uuid sp.serial) st
  | none => st

/-- Check 4: set-and-differing primary IPv4 between device and prototype fails. -/
def check_primary_ip (inv : Inventory) (sp : Prototype)
    (st : Bool × List VMessage) : Bool × List VMessage :=
  match sp.matching_netbox_device with
  | some did =>
    match (getDev inv did).bind (fun dv => dv.primary_ip4) with
    | some dip =>
      match sp.primary_ip4 with
      | some pip =>
        checkWhen (dip ≠ pip) (VMessage.primaryIpMismatch sp.instance_uuid sp.serial) st
      | none => st
    | none => st
  | none => st

/-- Post-check: every interface of the matching device must be reported by the
prototype (exceptions: virtual/LAG interfaces named case-insensitively, and
"0/0"/".100" management interfaces), and must be valid, module-backed or
template-derived. -/
def check_interfaces (inv : Inventory) (sp : Prototype)
    (st : Bool × List VMessage) : Bool × List VMessage :=
  match sp.matching_netbox_device with
  | some did =>
    let actual := inv.interfaces.filter (fun i => i.device == did)
    let names := sp.raw_data.interfaces.map (fun x => x.1)
    let interface_lower_names := names.map pyLower
    actual.foldl
      (fun st ai =>
        if (pyLower ai.itype == "virtual" || pyLower ai.itype == "lag")
           ∧ interface_lower_names.contains (pyLower ai.name) then st
        else if strContains ai.name "0/0" ∨ strContains ai.name ".100" then st
        else
          let st := checkWhen (¬ names.contains ai.name)
            (VMessage.interfaceNotInPrototype did ai.name sp.instance_uuid sp.serial) st
          checkWhen (¬ is_valid_interface ai.name ∧ ¬ ai.hasModule ∧ ¬ ai.isTemplate)
            (VMessage.interfaceNotFromModule did ai.name sp.instance_uuid sp.serial) st)
      st
  | none => st

/-- Post-check: every module bay of the matching device must appear
(case-insensitively) among the prototype's reported bays. -/
def check_module_bays (inv : Inventory) (sp : Prototype)
    (st : Bool × List VMessage) : Bool × List VMessage :=
  match sp.matching_netbox_device with
  | some did =>
    let bays := inv.moduleBays.filter (fun b => b.1 == did)
    let module_bay_lower_names := (sp.raw_data.modules.map (fun x => x.1)).map pyLower
    bays.foldl
      (fun st b =>
        checkWhen (¬ module_bay_lower_names.contains (pyLower b.2))
          (VMessage.moduleBayNotInPrototype did b.2 sp.instance_uuid sp.serial) st)
      st
  | none => st

/-- The validate_prototype loop body for one same-stack prototype `sp`:
related-but-not-matching, required fields, stack index and primary IP checks,
plus the post-import (after_modules) interface and module-bay checks. -/
def checkOne (db : List Prototype) (inv : Inventory) (after_modules : Bool)
    (st : Bool × List VMessage) (sp : Prototype) : Bool × List VMessage :=
  let st := check_related sp st
  let st := check_required sp st
  let st := check_stack db inv sp st
  let st := check_primary_ip inv sp st
  if after_modules then check_module_bays inv sp (check_interfaces inv sp st)
  else st

/-- SdnManager.validate_prototype: run the checks over every prototype sharing
the instance_uuid (stack-wide), threading the deduplicated message list. -/
def validate_prototype (db : List Prototype) (inv : Inventory) (sdn_prototype : Prototype)
    (message_list : List VMessage) (after_modules : Bool) : Bool × List VMessage :=
  let same_stack := db.filter (fun p => p.instance_uuid == sdn_prototype.instance_uuid)
  same_stack.foldl (checkOne db inv after_modules) (true, message_list)

/-- SdnManager.clean_prototype_interfaces: on every device matched by a
same-stack prototype, delete interfaces with no cable, no module, an invalid
name and no device-type-template origin. -/
def clean_prototype_interfaces (db : List Prototype) (inv : Inventory)
    (sdn_prototype : Prototype) : Inventory :=
  let matched := (db.filter (fun p => p.instance_uuid == sdn_prototype.instance_uuid)).filterMap
    (fun p => p.matching_netbox_device)
  { inv with
    interfaces := inv.interfaces.filter (fun i =>
      ¬ (matched.contains i.device ∧ ¬ i.hasCable ∧ ¬ i.hasModule
         ∧ ¬ is_valid_interface i.name ∧ ¬ i.isTemplate)) }

/-! ## Importer (SdnManager.import_fetched_elements_in_netbox)

The repository write operations (device create with template stripping, device
update, the module-bay/interface/IP write phase) are abstract repository
operations, passed in as a RepoOps record; the engine's control flow around
them — validation gates and sync_status assignments — is concrete.
-/

/-- Abstract inventory-repository write operations used by the importer. -/
structure RepoOps where
  createDevice : Inventory → NbDevice → Nat × Inventory
  updateDevice : Inventory → Nat → NbDevice → Inventory
  writeComponents : Inventory → Prototype → Nat → Inventory

/-- The engine's mutable state: the prototype table, the inventory, and the
accumulated (deduplicated) validation messages. -/
structure EngineState where
  db : List Prototype
  inv : Inventory
  msgs : List VMessage

/-- Save a prototype back into the table (keyed by (instance_uuid, serial)). -/
def replacePrototype (db : List Prototype) (p : Prototype) : List Prototype :=
  db.map (fun old =>
    if old.instance_uuid == p.instance_uuid && old.serial == p.serial then p else old)

/-- The selection of one prototype by key, excluding Deleted prototypes
(the constructor's queryset filter). -/
def importSelect (st : EngineState) (key : String × String) : Option Prototype :=
  st.db.find? (fun p =>
    p.instance_uuid == key.1 && p.serial == key.2
    && ¬ (p.sync_status == SyncStatus.deleted))

/-- The device create-or-update section of the import body: update the
matching device's empty serial, or create a new device from the prototype's
fields (createDevice covers the template-bay stripping).  Returns the device
id and the updated inventory. -/
def importDevicePhase (ops : RepoOps) (inv0 : Inventory) (p : Prototype) : Nat × Inventory :=
  match p.matching_netbox_device with
  | some did =>
    (match getDev inv0 did with
     | some dv =>
       if dv.serial = "" then (did, ops.updateDevice inv0 did { dv with serial := p.serial })
       else (did, inv0)
     | none => (did, inv0))
  | none =>
    ops.createDevice inv0
      { name := p.sdn_hostname
        serial := p.serial
        primary_ip4 := none
        site := p.site
        tenant := p.tenant
        role := p.role
        device_type := p.device_type }

/-- The component write phase after the device update: apply the prototype's
device_type, then write module bays, interfaces and IPs (abstract). -/
def importWritePhase (ops : RepoOps) (inv1 : Inventory) (did : Nat) (p1 : Prototype) : Inventory :=
  let inv2 :=
    match getDev inv1 did with
    | some dv =>
      ops.updateDevice inv1 did
        (if p1.device_type.isSome then { dv with device_type := p1.device_type } else dv)
    | none => inv1
  ops.writeComponents inv2 p1 did

/-- The pre-import validation call (after the orphan-interface cleanup). -/
def importPre (st : EngineState) (p : Prototype) : Bool × List VMessage :=
  validate_prototype st.db (clean_prototype_interfaces st.db st.inv p) p st.msgs false

/-- The selected prototype saved with its matching device and status Imported
(the save preceding the component writes). -/
def importP1 (ops : RepoOps) (st : EngineState) (p : Prototype) : Prototype :=
  { p with
    matching_netbox_device :=
      some (importDevicePhase ops (clean_prototype_interfaces st.db st.inv p) p).1
    sync_status := SyncStatus.imported }

/-- The inventory after the device phase and the component write phase. -/
def importInv3 (ops : RepoOps) (st : EngineState) (p : Prototype) : Inventory :=
  importWritePhase ops
    (importDevicePhase ops (clean_prototype_interfaces st.db st.inv p) p).2
    (importDevicePhase ops (clean_prototype_interfaces st.db st.inv p) p).1
    (importP1 ops st p)

/-- The post-import (after_modules) validation call, on the written state. -/
def importPost (ops : RepoOps) (st : EngineState) (p : Prototype) : Bool × List VMessage :=
  validate_prototype (replacePrototype st.db (importP1 ops st p)) (importInv3 ops st p)
    (importP1 ops st p) (importPre st p).2 true

/-- The per-prototype body of import_fetched_elements_in_netbox: clean orphan
interfaces, pre-validate (skip, status Discovered on failure), create or
update the device, mark Imported, run the component write phase, post-validate
(status Discovered again on failure). -/
def importBody (ops : RepoOps) (st : EngineState) (p : Prototype) : EngineState :=
  if ¬ (importPre st p).1 then
    { db := replacePrototype st.db { p with sync_status := SyncStatus.discovered }
      inv := clean_prototype_interfaces st.db st.inv p
      msgs := (importPre st p).2 }
  else if ¬ (importPost ops st p).1 then
    { db := replacePrototype (replacePrototype st.db (importP1 ops st p))
        { importP1 ops st p with sync_status := SyncStatus.discovered }
      inv := importInv3 ops st p
      msgs := (importPost ops st p).2 }
  else
    { db := replacePrototype st.db (importP1 ops st p)
      inv := importInv3 ops st p
      msgs := (importPost ops st p).2 }

/-- One iteration of the import loop: select by key (Deleted excluded) and run
the import body. -/
def importOne (ops : RepoOps) (st : EngineState) (key : String × String) : EngineState :=
  match importSelect st key with
  | none => st
  | some p => importBody ops st p

/-- The import loop over the selected prototype keys. -/
def import_selected (ops : RepoOps) (st : EngineState) (keys : List (String × String)) : EngineState :=
  keys.foldl (importOne ops) st

/-! ## Interface attribute merge (process_interfaces, fill-empty/warn-on-conflict) -/

/-- The duplex_choices list of process_interfaces. -/
def duplex_choices : List String := ["half", "full", "auto"]

/-- Duplex normalization: the first of "half"/"full"/"auto" occurring as a
substring of the lowercased controller-reported duplex (None when absent). -/
def normalize_duplex (reported : Option String) : Option String :=
  duplex_choices.find? (fun c => strContains (pyLower (reported.getD "")) c)

/-- Python truthiness of an optional integer field (0 and None are falsy). -/
def numTruthy : Option Nat → Bool
  | some n => n ≠ 0
  | none => false

/-- Python truthiness of an optional string field ("" and None are falsy). -/
def optStrTruthy : Option String → Bool
  | some s => s ≠ ""
  | none => false

/-- The iface_attrs dictionary of process_interfaces: speed (when reported
truthy), description, and the normalized duplex. -/
def iface_attrs (d : IfaceData) : Option Nat × Option String × Option String :=
  ((if numTruthy d.speed then d.speed else none), d.description, normalize_duplex d.duplex)

/-- One attribute of the process_interfaces merge loop: a truthy existing
value that differs from the reported one is kept and flagged (warning);
a falsy existing value is overwritten with the reported one. -/
def merge_attr {α : Type} [DecidableEq α] (truthy : α → Bool) (existing value : α) : α × Bool :=
  if truthy existing then
    (if existing ≠ value then (existing, true) else (existing, false))
  else (value, false)

/-- The full {speed, description, duplex} merge of process_interfaces for one
interface; returns the updated interface and the warned attribute names. -/
def merge_interface_attrs (iface : NbIface) (d : IfaceData) : NbIface × List String :=
  let attrs := iface_attrs d
  let ms := merge_attr numTruthy iface.speed attrs.1
  let md := merge_attr optStrTruthy iface.description attrs.2.1
  let mx := merge_attr optStrTruthy iface.duplex attrs.2.2
  ({ iface with speed := ms.1, description := md.1, duplex := mx.1 },
   (if ms.2 then ["speed"] else [])
     ++ (if md.2 then ["description"] else [])
     ++ (if mx.2 then ["duplex"] else []))

/-! ## Monotonicity lemmas for the validator pipeline

Once a check fails, prototype_is_ok stays False; messages are only appended.
-/

theorem logFailure_fst (st : Bool × List VMessage) (m : VMessage) :
    (logFailure st m).1 = false := rfl

theorem logFailure_mem_self (st : Bool × List VMessage) (m : VMessage) :
    m ∈ (logFailure st m).2 := by
  unfold logFailure
  by_cases h : m ∈ st.2 <;> simp [h]

theorem logFailure_mem (st : Bool × List VMessage) (m x : VMessage) (h : x ∈ st.2) :
    x ∈ (logFailure st m).2 := by
  unfold logFailure
  by_cases hm : m ∈ st.2 <;> simp [hm, h]

theorem checkWhen_fst_false (c : Bool) (m : VMessage) (st : Bool × List VMessage)
    (h : st.1 = false) : (checkWhen c m st).1 = false := by
  unfold checkWhen
  split
  · rfl
  · exact h

theorem checkWhen_mem (c : Bool) (m : VMessage) (st : Bool × List VMessage) (x : VMessage)
    (h : x ∈ st.2) : x ∈ (checkWhen c m st).2 := by
  unfold checkWhen
  split
  · exact logFailure_mem st m x h
  · exact h

theorem foldl_fst_false {β : Type} {g : Bool × List VMessage → β → Bool × List VMessage}
    (hg : ∀ st b, st.1 = false → (g st b).1 = false) :
    ∀ (l : List β) (st : Bool × List VMessage), st.1 = false → (l.foldl g st).1 = false
  | [], _, h => h
  | b :: bs, st, h => foldl_fst_false hg bs (g st b) (hg st b h)

theorem foldl_mem {β : Type} {g : Bool × List VMessage → β → Bool × List VMessage}
    (hg : ∀ st b x, x ∈ st.2 → x ∈ (g st b).2) :
    ∀ (l : List β) (st : Bool × List VMessage) (x : VMessage), x ∈ st.2 → x ∈ (l.foldl g st).2
  | [], _, _, h => h
  | b :: bs, st, x, h => foldl_mem hg bs (g st b) x (hg st b x h)

theorem check_related_fst (sp : Prototype) (st : Bool × List VMessage) (h : st.1 = false) :
    (check_related sp st).1 = false :=
  checkWhen_fst_false _ _ _ h

theorem check_related_mem (sp : Prototype) (st : Bool × List VMessage) (x : VMessage)
    (h : x ∈ st.2) : x ∈ (check_related sp st).2 :=
  checkWhen_mem _ _ _ _ h

theorem check_required_fst (sp : Prototype) (st : Bool × List VMessage) (h : st.1 = false) :
    (check_required sp st).1 = false :=
  foldl_fst_false (fun st _b hb => checkWhen_fst_false _ _ st hb) _ _ h

theorem check_required_mem (sp : Prototype) (st : Bool × List VMessage) (x : VMessage)
    (h : x ∈ st.2) : x ∈ (check_required sp st).2 :=
  foldl_mem (fun st _b y hy => checkWhen_mem _ _ st y hy) _ _ _ h

theorem check_stack_fst (db : List Prototype) (inv : Inventory) (sp : Prototype)
    (st : Bool × List VMessage) (h : st.1 = false) : (check_stack db inv sp st).1 = false := by
  unfold check_stack
  cases sp.matching_netbox_device
  · exact h
  · exact checkWhen_fst_false _ _ _ h

theorem check_stack_mem (db : List Prototype) (inv : Inventory) (sp : Prototype)
    (st : Bool × List VMessage) (x : VMessage) (h : x ∈ st.2) :
    x ∈ (check_stack db inv sp st).2 := by
  unfold check_stack
  cases sp.matching_netbox_device
  · exact h
  · exact checkWhen_mem _ _ _ _ h

theorem check_primary_ip_fst (inv : Inventory) (sp : Prototype)
    (st : Bool × List VMessage) (h : st.1 = false) : (check_primary_ip inv sp st).1 = false := by
  unfold check_primary_ip
  repeat' split
  all_goals first
    | exact checkWhen_fst_false _ _ _ h
    | exact h

theorem check_primary_ip_mem (inv : Inventory) (sp : Prototype)
    (st : Bool × List VMessage) (x : VMessage) (h : x ∈ st.2) :
    x ∈ (check_primary_ip inv sp st).2 := by
  unfold check_primary_ip
  repeat' split
  all_goals first
    | exact checkWhen_mem _ _ _ _ h
    | exact h

theorem check_interfaces_fst (inv : Inventory) (sp : Prototype)
    (st : Bool × List VMessage) (h : st.1 = false) : (check_interfaces inv sp st).1 = false := by
  unfold check_interfaces
  cases sp.matching_netbox_device with
  | none => exact h
  | some did =>
    apply foldl_fst_false ?_ _ _ h
    intro st' ai h'
    split
    · exact h'
    · split
      · exact h'
      · exact checkWhen_fst_false _ _ _ (checkWhen_fst_false _ _ _ h')

theorem check_interfaces_mem (inv : Inventory) (sp : Prototype)
    (st : Bool × List VMessage) (x : VMessage) (h : x ∈ st.2) :
    x ∈ (check_interfaces inv sp st).2 := by
  unfold check_interfaces
  cases sp.matching_netbox_device with
  | none => exact h
  | some did =>
    apply foldl_mem ?_ _ _ _ h
    intro st' ai y h'
    split
    · exact h'
    · split
      · exact h'
      · exact checkWhen_mem _ _ _ _ (checkWhen_mem _ _ _ _ h')

theorem check_module_bays_fst (inv : Inventory) (sp : Prototype)
    (st : Bool × List VMessage) (h : st.1 = false) : (check_module_bays inv sp st).1 = false := by
  unfold check_module_bays
  cases sp.matching_netbox_device with
  | none => exact h
  | some did =>
    apply foldl_fst_false ?_ _ _ h
    intro st' b h'
    exact checkWhen_fst_false _ _ _ h'

theorem check_module_bays_mem (inv : Inventory) (sp : Prototype)
    (st : Bool × List VMessage) (x : VMessage) (h : x ∈ st.2) :
    x ∈ (check_module_bays inv sp st).2 := by
  unfold check_module_bays
  cases sp.matching_netbox_device with
  | none => exact h
  | some did =>
    apply foldl_mem ?_ _ _ _ h
    intro st' b y h'
    exact checkWhen_mem _ _ _ _ h'

theorem checkOne_fst (db : List Prototype) (inv : Inventory) (am : Bool)
    (st : Bool × List VMessage) (sp : Prototype) (h : st.1 = false) :
    (checkOne db inv am st sp).1 = false := by
  unfold checkOne
  split
  · exact check_module_bays_fst _ _ _
      (check_interfaces_fst _ _ _
        (check_primary_ip_fst _ _ _
          (check_stack_fst _ _ _ _
            (check_required_fst _ _
              (check_related_fst _ _ h)))))
  · exact check_primary_ip_fst _ _ _
      (check_stack_fst _ _ _ _
        (check_required_fst _ _
          (check_related_fst _ _ h)))

theorem checkOne_mem (db : List Prototype) (inv : Inventory) (am : Bool)
    (st : Bool × List VMessage) (sp : Prototype) (x : VMessage) (h : x ∈ st.2) :
    x ∈ (checkOne db inv am st sp).2 := by
  unfold checkOne
  split
  · exact check_module_bays_mem _ _ _ _
      (check_interfaces_mem _ _ _ _
        (check_primary_ip_mem _ _ _ _
          (check_stack_mem _ _ _ _ _
            (check_required_mem _ _ _
              (check_related_mem _ _ _ h)))))
  · exact check_primary_ip_mem _ _ _ _
      (check_stack_mem _ _ _ _ _
        (check_required_mem _ _ _
          (check_related_mem _ _ _ h)))

/-! ## Claim theorems -/

/-- C8: interface validity.  A name containing "appgigabitethernet"
(case-insensitively) is never valid; a name matching `\D+(\d+)/(\d+)` is valid
exactly when the first captured component is 0 or, failing that, the second
is 0; and the four concrete examples behave as stated. -/
theorem C8_interface_validity :
    (∀ name : String,
      strContains (pyLower name) "appgigabitethernet" = true →
      is_valid_interface name = false)
    ∧ (∀ (name : String) (g1 g2 : Nat),
        strContains (pyLower name) "appgigabitethernet" = false →
        ddSearch name.data = some (g1, g2) →
        is_valid_interface name = (g1 == 0 || g2 == 0))
    ∧ is_valid_interface "AppGigabitEthernet1/0/1" = false
    ∧ is_valid_interface "GigabitEthernet0/1" = true
    ∧ is_valid_interface "TenGigabitEthernet1/0/3" = true
    ∧ is_valid_interface "TenGigabitEthernet2/1/4" = false := by
  refine ⟨?_, ?_, by decide, by decide, by decide, by decide⟩
  · intro name h
    simp [is_valid_interface, h]
  · intro name g1 g2 happ hdd
    simp only [is_valid_interface, happ, Bool.false_eq_true, if_false, hdd]
    by_cases h1 : g1 = 0 <;> simp [h1]

/-- C8 witness: the general component-rule applied at "TenGigabitEthernet1/0/3"
(components 1 and 0). -/
theorem C8_interface_validity_witness :
    is_valid_interface "TenGigabitEthernet1/0/3" = ((1 : Nat) == 0 || (0 : Nat) == 0) :=
  C8_interface_validity.2.1 "TenGigabitEthernet1/0/3" 1 0 (by decide) (by decide)

/-- A raw device record whose type contains "nexus", for the C10 evidence. -/
def nexusDevice : RawDevice :=
  { id := "uuid-nexus-1"
    hostname := "nx-core-1.example.net"
    serialNumber := "FOC12345678"
    platformId := "N9K-C93180YC-EX"
    type' := "Cisco Nexus 9000 Series Switch"
    family := "Switches and Hubs"
    role := "ACCESS"
    managementIpAddress := some "10.1.1.1"
    instanceUuid := "uuid-nexus-1"
    errorCode := none }

/-- C10: a raw device whose reported type contains "nexus" (case-insensitive)
contributes no unit at all to the split pass — it is dropped before splitting,
so it yields no prototypes downstream. -/
theorem C10_nexus_exclusion :
    (∀ (gci : String → List (String × Nat)) (nsi : String → List Nat)
        (filt : List String) (d : RawDevice),
      strContains (pyLower d.type') "nexus" = true →
      split_one gci nsi filt d = some [])
    ∧ (∀ (gci : String → List (String × Nat)) (nsi : String → List Nat)
        (filt : List String) (d : RawDevice) (ds : List RawDevice),
      strContains (pyLower d.type') "nexus" = true →
      split_device_list gci nsi filt (d :: ds) = split_device_list gci nsi filt ds)
    ∧ split_one (fun _ => []) (fun _ => []) [] nexusDevice = some [] := by
  refine ⟨?_, ?_, by decide⟩
  · intro gci nsi filt d h
    simp [split_one, h]
  · intro gci nsi filt d ds h
    show (match split_one gci nsi filt d, split_device_list gci nsi filt ds with
          | some us, some vs => some (us ++ vs)
          | _, _ => none) = split_device_list gci nsi filt ds
    rw [show split_one gci nsi filt d = some [] from by simp [split_one, h]]
    cases split_device_list gci nsi filt ds <;> simp

/-- C10 witness: the general exclusion applied to the concrete Nexus record. -/
theorem C10_nexus_exclusion_witness :
    split_one (fun _ => [("X", 1)]) (fun _ => [1, 2]) [] nexusDevice = some [] :=
  C10_nexus_exclusion.1 (fun _ => [("X", 1)]) (fun _ => [1, 2]) [] nexusDevice (by decide)

/-- C7: the {speed, description, duplex} merge of process_interfaces.  A
truthy existing value differing from the reported one is preserved and
warned about; a falsy existing value is overwritten with the reported one;
the reported duplex is first normalized to the first of half/full/auto
occurring as a substring of the lowercased controller value. -/
theorem C7_attribute_merge :
    (∀ (iface : NbIface) (d : IfaceData),
      (numTruthy iface.speed = true → iface.speed ≠ (iface_attrs d).1 →
        (merge_interface_attrs iface d).1.speed = iface.speed
        ∧ "speed" ∈ (merge_interface_attrs iface d).2)
      ∧ (numTruthy iface.speed = false →
          (merge_interface_attrs iface d).1.speed = (iface_attrs d).1)
      ∧ (optStrTruthy iface.description = true → iface.description ≠ d.description →
          (merge_interface_attrs iface d).1.description = iface.description
          ∧ "description" ∈ (merge_interface_attrs iface d).2)
      ∧ (optStrTruthy iface.description = false →
          (merge_interface_attrs iface d).1.description = d.description)
      ∧ (optStrTruthy iface.duplex = true → iface.duplex ≠ normalize_duplex d.duplex →
          (merge_interface_attrs iface d).1.duplex = iface.duplex
          ∧ "duplex" ∈ (merge_interface_attrs iface d).2)
      ∧ (optStrTruthy iface.duplex = false →
          (merge_interface_attrs iface d).1.duplex = normalize_duplex d.duplex))
    ∧ (∀ (r : Option String) (c : String),
        normalize_duplex r = some c →
        c ∈ duplex_choices ∧ strContains (pyLower (r.getD "")) c = true)
    ∧ (∀ r : Option String,
        normalize_duplex r = none →
        ∀ c ∈ duplex_choices, strContains (pyLower (r.getD "")) c = false) := by
  refine ⟨?_, ?_, ?_⟩
  · intro iface d
    refine ⟨?_, ?_, ?_, ?_, ?_, ?_⟩
    · intro h1 h2
      constructor
      · simp [merge_interface_attrs, merge_attr, h1, h2]
      · simp [merge_interface_attrs, merge_attr, h1, h2]
    · intro h1
      simp [merge_interface_attrs, merge_attr, h1]
    · intro h1 h2
      constructor
      · simp [merge_interface_attrs, merge_attr, iface_attrs, h1, h2]
      · simp [merge_interface_attrs, merge_attr, iface_attrs, h1, h2]
    · intro h1
      simp [merge_interface_attrs, merge_attr, iface_attrs, h1]
    · intro h1 h2
      constructor
      · simp [merge_interface_attrs, merge_attr, iface_attrs, h1, h2]
      · simp [merge_interface_attrs, merge_attr, iface_attrs, h1, h2]
    · intro h1
      simp [merge_interface_attrs, merge_attr, iface_attrs, h1]
  · intro r c h
    exact ⟨List.mem_of_find?_eq_some h, List.find?_some h⟩
  · intro r h c hc
    have := List.find?_eq_none.mp h c hc
    simpa using this

/-- A NetBox interface with a set speed and duplex, for the C7 witness. -/
def ifaceC7 : NbIface :=
  { device := 7
    name := "GigabitEthernet0/1"
    itype := "1000base-t"
    hasModule := false
    hasCable := true
    isTemplate := true
    speed := some 1000000
    description := none
    duplex := some "full" }

/-- A controller interface report conflicting with ifaceC7, for the C7 witness. -/
def ifaceDataC7 : IfaceData :=
  { interfaceType := "Physical"
    speed := some 100000
    description := some "uplink to core"
    duplex := some "Half-Duplex"
    macAddress := none
    portMode := some "access"
    ipv4Address := none
    ipv4Mask := none }

/-- C7 witness: on the concrete conflicting interface, the existing speed is
preserved with a warning, the empty description is filled from the report,
and the conflicting duplex (normalized to "half") is preserved with a warning. -/
theorem C7_attribute_merge_witness :
    ((merge_interface_attrs ifaceC7 ifaceDataC7).1.speed = ifaceC7.speed
      ∧ "speed" ∈ (merge_interface_attrs ifaceC7 ifaceDataC7).2)
    ∧ (merge_interface_attrs ifaceC7 ifaceDataC7).1.description = ifaceDataC7.description
    ∧ ((merge_interface_attrs ifaceC7 ifaceDataC7).1.duplex = ifaceC7.duplex
      ∧ "duplex" ∈ (merge_interface_attrs ifaceC7 ifaceDataC7).2)
    ∧ ("half" ∈ duplex_choices
      ∧ strContains (pyLower ((ifaceDataC7.duplex).getD "")) "half" = true) :=
  ⟨(C7_attribute_merge.1 ifaceC7 ifaceDataC7).1 (by decide) (by decide),
   (C7_attribute_merge.1 ifaceC7 ifaceDataC7).2.2.2.1 (by decide),
   (C7_attribute_merge.1 ifaceC7 ifaceDataC7).2.2.2.2.1 (by decide) (by decide),
   C7_attribute_merge.2.1 ifaceDataC7.duplex "half" (by decide)⟩

/-- serial equality against the matching device (false when no matching
device exists, as the comparison has no right-hand side then). -/
def serials_equal (q : Queries) (inp : ProtoInput) : Bool :=
  match matching_final q inp with
  | some (_, dv) => decide (inp.serialNumber = dv.serial)
  | none => false

/-- hostname equality against the matching device's (possibly renamed) name. -/
def hostnames_equal (q : Queries) (inp : ProtoInput) : Bool :=
  match matching_final q inp with
  | some (_, dv) => decide (resolved_hostname inp = dv.name)
  | none => false

/-- An oracle where every repository query comes back empty. -/
def qEmpty : Queries :=
  { deviceBySerial := fun _ => none
    deviceByName := fun _ => none
    deviceByPrimaryIp := fun _ => none
    deviceByNameContains := fun _ => none
    deviceTypeByModel := fun _ => none
    deviceTypeByPart := fun _ => none
    ipStartsWith := fun _ => none
    siteFromPrefix := fun _ => none
    siteByFacility := fun _ => none
    roleByFacility := fun _ => none
    regexFacility := fun _ _ => none }

/-- A controller configuration with no regex template. -/
def ctl0 : SdnControllerCfg :=
  { id := 1, sdn_type := "Catalyst Center", default_tenant := none, has_regex_template := false }

/-- A fully matched inventory device for the C6 maximal-score example. -/
def devFull : NbDevice :=
  { name := "sw-lab-1"
    serial := "FCW2222A0AA"
    primary_ip4 := some "10.20.30.40/24"
    site := some 3
    tenant := some 4
    role := some 5
    device_type := some 9 }

/-- An oracle resolving the matching device, the device type and a site. -/
def qFull : Queries :=
  { qEmpty with
    deviceBySerial := fun s => if s = "FCW2222A0AA" then some (7, devFull) else none
    deviceTypeByModel := fun m => if m = "C9300-48P" then some 9 else none
    siteFromPrefix := fun _ => some 3 }

/-- A prototype input matching devFull on serial and hostname. -/
def inpFull : ProtoInput :=
  { id := "u-1"
    hostname := "sw-lab-1.corp.example"
    serialNumber := "FCW2222A0AA"
    platformId := "C9300-48P"
    type' := "Cisco Catalyst 9300 Switch"
    family := "Switches and Hubs"
    role := "ACCESS"
    managementIpAddress := some "10.20.30.40"
    instanceUuid := "u-1"
    errorCode := none
    rank := 1
    total_serial := 1
    is_multiple := false
    stack_info := [("FCW2222A0AA", 1)]
    interfaces := []
    modules := []
    managementIpMask := some "255.255.255.0" }

/-- A prototype input with no matching device and nothing resolvable. -/
def inpBare : ProtoInput :=
  { id := "u-2"
    hostname := "unknown-host"
    serialNumber := "XXXYYY"
    platformId := "GENERIC"
    type' := "Cisco Catalyst 9300 Switch"
    family := "Switches and Hubs"
    role := "ACCESS"
    managementIpAddress := none
    instanceUuid := "u-2"
    errorCode := none
    rank := 1
    total_serial := 1
    is_multiple := false
    stack_info := [("XXXYYY", 1)]
    interfaces := []
    modules := []
    managementIpMask := none }

/-- C6: the confidence score decomposes into the additive terms +5 for a
matching device, +1 for serial equality, +1 for hostname equality, +1 for a
resolved/created primary IPv4, +1 for a resolved device type and +1 for a
resolved site; the fully matched example scores 10 and the bare one 0. -/
theorem C6_scoring :
    (∀ (q : Queries) (ctl : SdnControllerCfg) (inp : ProtoInput),
      score_computed q ctl inp =
        (if (matching_final q inp).isSome then 5 else 0)
        + (if serials_equal q inp then 1 else 0)
        + (if hostnames_equal q inp then 1 else 0)
        + (if (resolved_primary_ip4 q inp).isSome then 1 else 0)
        + (if (resolved_device_type q inp).isSome then 1 else 0)
        + (if (site_resolved q ctl inp).isSome then 1 else 0))
    ∧ score_computed qFull ctl0 inpFull = 10
    ∧ score_computed qEmpty ctl0 inpBare = 0 := by
  refine ⟨?_, by decide, by decide⟩
  intro q ctl inp
  unfold score_computed serials_equal hostnames_equal
  cases hm : matching_final q inp with
  | none => simp [hm]
  | some pr =>
    cases pr with
    | mk i dv => simp [hm]

/-- C5: re-processing an already-stored prototype (same (instance_uuid,
serial) key) preserves the five operator-owned fields device_type,
primary_ip4, site, tenant and role from the stored row, and overwrites every
other field with the freshly built candidate's value; the saved prototype is
in the updated table. -/
theorem C5_upsert_frame :
    ∀ (q : Queries) (ctl : SdnControllerCfg) (db : List Prototype) (inp : ProtoInput)
      (old : Prototype),
      db.find? (fun p =>
        p.instance_uuid == inp.instanceUuid && p.serial == inp.serialNumber) = some old →
      (process_prototype q ctl db inp).2 =
        { build_candidate q ctl inp with
          device_type := old.device_type
          primary_ip4 := old.primary_ip4
          site := old.site
          tenant := old.tenant
          role := old.role }
      ∧ (process_prototype q ctl db inp).2 ∈ (process_prototype q ctl db inp).1 := by
  intro q ctl db inp old h
  have hu : (build_candidate q ctl inp).instance_uuid = inp.instanceUuid := rfl
  have hs : (build_candidate q ctl inp).serial = inp.serialNumber := rfl
  have hmem : old ∈ db := List.mem_of_find?_eq_some h
  have hpred := List.find?_some h
  unfold process_prototype upsert_prototype
  rw [hu, hs, h]
  exact ⟨rfl, List.mem_map.mpr ⟨old, hmem, by simp [hpred]⟩⟩

/-- A stored prototype with operator-set fields, for the C5 witness. -/
def oldC5 : Prototype :=
  { serial := "SER5"
    sdn_hostname := "old-name"
    sdn_management_ip := none
    primary_ip4 := some "192.0.2.1/32"
    matching_netbox_device := none
    related_netbox_device := none
    sdn_device_type := "OLD-MODEL"
    device_type := some 42
    sdn_role := "DISTRIBUTION"
    stack_info := []
    stack_index := "1"
    role := some 43
    raw_data := { managementIpAddress := none, interfaces := [], modules := [] }
    sdn_controller := 1
    instance_uuid := "u-5"
    family := "Switches and Hubs"
    site := some 44
    tenant := some 45
    score := 9
    sync_status := SyncStatus.imported }

/-- A fresh fetch of the same (instance_uuid, serial) key as oldC5. -/
def inpC5 : ProtoInput :=
  { inpBare with
    toSplitUnit :=
      { inpBare.toSplitUnit with
        toRawDevice :=
          { inpBare.toRawDevice with
            id := "u-5", instanceUuid := "u-5", serialNumber := "SER5",
            hostname := "edge-5" } } }

/-- C5 witness: the frame property at the concrete stored prototype. -/
theorem C5_upsert_frame_witness :
    (process_prototype qEmpty ctl0 [oldC5] inpC5).2 =
      { build_candidate qEmpty ctl0 inpC5 with
        device_type := oldC5.device_type
        primary_ip4 := oldC5.primary_ip4
        site := oldC5.site
        tenant := oldC5.tenant
        role := oldC5.role }
    ∧ (process_prototype qEmpty ctl0 [oldC5] inpC5).2
        ∈ (process_prototype qEmpty ctl0 [oldC5] inpC5).1 :=
  C5_upsert_frame qEmpty ctl0 [oldC5] inpC5 oldC5 (by decide)

/-- Stored prototype (U1, S1) of controller 1, for the C2 scenario. -/
def pC2a : Prototype :=
  { oldC5 with instance_uuid := "U1", serial := "S1", sync_status := SyncStatus.discovered }

/-- Stored prototype (U2, S2) of controller 1, for the C2 scenario. -/
def pC2b : Prototype :=
  { oldC5 with instance_uuid := "U2", serial := "S2", sync_status := SyncStatus.discovered }

/-- The stored table for the C2 scenario. -/
def dbC2 : List Prototype := [pC2a, pC2b]

/-- A later fetch pass re-reporting (U2, S2), for the C2 resurrection step. -/
def inpC2b : ProtoInput :=
  { inpBare with
    toSplitUnit :=
      { inpBare.toSplitUnit with
        toRawDevice :=
          { inpBare.toRawDevice with
            id := "U2", instanceUuid := "U2", serialNumber := "S2" } } }

/-- C2: after a pass whose key set is `keys`, every stored prototype of the
controller whose key is absent transitions to Deleted and prototypes whose
key is present are left unchanged; concretely, with stored keys
{(U1,S1),(U2,S2)} and a fresh pass reporting only (U1,S1), (U2,S2) becomes
deleted, and a subsequent pass reporting (U2,S2) resurrects it to discovered
through the upsert. -/
theorem C2_deletion_detection :
    (∀ (ctl : Nat) (keys : List (String × String)) (db : List Prototype) (p : Prototype),
      p ∈ db →
      (p.sdn_controller = ctl → keys.contains (p.instance_uuid, p.serial) = false →
        { p with sync_status := SyncStatus.deleted } ∈ check_for_deleted_devices ctl keys db)
      ∧ (keys.contains (p.instance_uuid, p.serial) = true →
          p ∈ check_for_deleted_devices ctl keys db))
    ∧ check_for_deleted_devices 1 [("U1", "S1")] dbC2
        = [pC2a, { pC2b with sync_status := SyncStatus.deleted }]
    ∧ (process_prototype qEmpty ctl0
        (check_for_deleted_devices 1 [("U1", "S1")] dbC2) inpC2b).2.sync_status
        = SyncStatus.discovered
    ∧ ((process_prototype qEmpty ctl0
        (check_for_deleted_devices 1 [("U1", "S1")] dbC2) inpC2b).1.map
          (fun r => (r.instance_uuid, r.serial, r.sync_status)))
        = [("U1", "S1", SyncStatus.discovered), ("U2", "S2", SyncStatus.discovered)] := by
  refine ⟨?_, by decide, by decide, by decide⟩
  intro ctl keys db p hp
  constructor
  · intro h1 h2
    unfold check_for_deleted_devices
    refine List.mem_map.mpr ⟨p, hp, ?_⟩
    have hc1 : (p.sdn_controller == ctl) = true := by simp [h1]
    simp only [hc1, h2]
    simp
  · intro h2
    unfold check_for_deleted_devices
    refine List.mem_map.mpr ⟨p, hp, ?_⟩
    simp only [h2]
    simp

/-- C2 witness: the deletion rule applied at the concrete (U2, S2) prototype. -/
theorem C2_deletion_detection_witness :
    { pC2b with sync_status := SyncStatus.deleted }
      ∈ check_for_deleted_devices 1 [("U1", "S1")] dbC2 :=
  ((C2_deletion_detection.1 1 [("U1", "S1")] dbC2 pC2b (by decide)).1 (by decide) (by decide))

/-- Second components of enumFrom entries are list members. -/
theorem mem_enumFrom_snd {α : Type} :
    ∀ (l : List α) (n : Nat) (p : Nat × α), p ∈ List.enumFrom n l → p.2 ∈ l
  | [], _, _, h => absurd h (List.not_mem_nil _)
  | a :: as, n, p, h => by
    cases h with
    | head => exact List.mem_cons_self _ _
    | tail _ h2 => exact List.mem_cons_of_mem _ (mem_enumFrom_snd as (n + 1) p h2)

/-- sync_sdn_controller_devices attaching the fetched interface/module
dictionaries to one split unit before process_prototype. -/
def proto_input_of_unit (u : SplitUnit) (ifs : List (String × IfaceData))
    (mods : List (String × ModuleBayData)) (mask : Option String) : ProtoInput :=
  { toSplitUnit := u, interfaces := ifs, modules := mods, managementIpMask := mask }

/-- The raw stacked device AAA,BBB of the C3 example. -/
def dC3 : RawDevice :=
  { id := "dev-3"
    hostname := "host.example.com"
    serialNumber := "AAA,BBB"
    platformId := "C9300-48P,C9300-48P"
    type' := "Cisco Catalyst 9300 Switch"
    family := "Switches and Hubs"
    role := "ACCESS"
    managementIpAddress := some "10.0.0.5"
    instanceUuid := "dev-3"
    errorCode := none }

/-- The stack enumeration {AAA:1, BBB:2} of the C3 example. -/
def gciC3 : String → List (String × Nat) := fun _ => [("AAA", 1), ("BBB", 2)]

/-- Specification of the per-serial unit loop, for any chassis index. -/
theorem split_serial_units_spec (d : RawDevice) (h0 : String)
    (serials platform_ids : List String) (ci : List (String × Nat)) (us : List SplitUnit)
    (hs : split_serial_units d h0 serials platform_ids ci = some us) :
    us.length = serials.length
    ∧ ∀ u ∈ us,
        dictLookup u.stack_info u.serialNumber = some u.rank
        ∧ u.managementIpAddress = (if 1 < u.rank then none else d.managementIpAddress)
        ∧ (1 < us.length → u.hostname = h0 ++ "-" ++ toString u.rank) := by
  unfold split_serial_units at hs
  split at hs
  case isFalse => exact absurd hs (by simp)
  case isTrue hguard =>
    have hus := Option.some.inj hs
    subst hus
    have hall := hguard.1
    constructor
    · simp
    · intro u hu
      obtain ⟨p, hmem, hueq⟩ := List.mem_map.mp hu
      have hsmem : p.2 ∈ serials := mem_enumFrom_snd _ 0 p hmem
      have hlook : (dictLookup ci (pyStrip p.2)).isSome = true := by
        have := List.all_eq_true.mp hall p.2 hsmem
        simpa using this
      obtain ⟨r, hr⟩ := Option.isSome_iff_exists.mp hlook
      subst hueq
      refine ⟨?_, ?_, ?_⟩
      · simp [mkSplitUnit, hr]
      · simp [mkSplitUnit, hr]
      · intro hlen
        have hlen2 : 1 < serials.length := by simpa using hlen
        simp [mkSplitUnit, hr, hlen2]

/-- C3: splitting a record with a comma-separated serial list yields one unit
per serial whose rank is the stack/chassis enumeration's rank for that serial;
units of rank > 1 have the management IP cleared (rank 1 keeps it), and with
more than one unit every hostname is the parent hostname plus "-<rank>".
Concretely, serial "AAA,BBB" with stack map {AAA:1, BBB:2} gives stack_index
"1"/"2", hostnames host-1/host-2, and only rank 1 keeps the management IP. -/
theorem C3_splitting :
    (∀ (gci : String → List (String × Nat)) (nsi : String → List Nat)
        (d : RawDevice) (us : List SplitUnit),
      strContains (pyLower d.type') "nexus" = false →
      strTruthy d.serialNumber = true →
      split_one gci nsi [] d = some us →
      us.length = (pySplit d.serialNumber ',').length
      ∧ ∀ u ∈ us,
          dictLookup u.stack_info u.serialNumber = some u.rank
          ∧ u.managementIpAddress = (if 1 < u.rank then none else d.managementIpAddress)
          ∧ (1 < us.length →
              u.hostname = (pySplit d.hostname '.').headD "" ++ "-" ++ toString u.rank))
    ∧ ((split_one gciC3 (fun _ => []) [] dC3).getD []).map
        (fun u => (u.serialNumber, u.rank, u.hostname, u.managementIpAddress))
        = [("AAA", 1, "host-1", some "10.0.0.5"), ("BBB", 2, "host-2", none)]
    ∧ ((split_one gciC3 (fun _ => []) [] dC3).getD []).map
        (fun u => (build_candidate qEmpty ctl0 (proto_input_of_unit u [] [] none)).stack_index)
        = ["1", "2"] := by
  refine ⟨?_, by decide, by decide⟩
  intro gci nsi d us hnex hser hsplit
  unfold split_one at hsplit
  simp only [hnex, hser, Bool.false_eq_true, if_false, if_true, ne_eq, not_true_eq_false,
    false_and, if_pos] at hsplit
  exact split_serial_units_spec d _ _ _ _ us hsplit

/-- C3 witness: the general splitting property at the concrete AAA,BBB stack. -/
theorem C3_splitting_witness :
    ((split_one gciC3 (fun _ => []) [] dC3).getD []).length
        = (pySplit dC3.serialNumber ',').length
    ∧ ∀ u ∈ (split_one gciC3 (fun _ => []) [] dC3).getD [],
        dictLookup u.stack_info u.serialNumber = some u.rank
        ∧ u.managementIpAddress
            = (if 1 < u.rank then none else dC3.managementIpAddress)
        ∧ (1 < ((split_one gciC3 (fun _ => []) [] dC3).getD []).length →
            u.hostname = (pySplit dC3.hostname '.').headD "" ++ "-" ++ toString u.rank) :=
  C3_splitting.1 gciC3 (fun _ => []) dC3
    ((split_one gciC3 (fun _ => []) [] dC3).getD [])
    (by decide) (by decide) (by decide)

/-- A module of a two-unit stack: not in the card index, exactly one module
reported, switch number inferable from the name, slot number not inferable. -/
def modC9 : ApiModule :=
  { name := "Switch 2"
    serialNumber := "ABCD1234"
    switchnumber := none
    slotnumber := none
    dnac_name := none }

/-- C9 counterexample: for a unit of a two-serial stack (total_serial = 2)
with exactly one reported module, a known switch number and no inferable slot
number, the code does NOT default the slot to 1 and does not rename the
module — the claim's condition "the unit has exactly one module" is not what
the code tests (it tests total_serial == number of modules). -/
theorem C9_counterexample :
    (extract_module_positions [] true 2 [modC9]).map
        (fun m => (m.switchnumber, m.slotnumber, m.name))
      = [(some "2", none, "Switch 2")]
    ∧ (extract_module_positions [] true 2 [modC9]).map (fun m => m.slotnumber)
        ≠ [some "1"] := by
  refine ⟨by decide, by decide⟩

/-- C9 amended: for a module not found in the card index, with a known switch
number and no slot number inferable from name patterns, the slot number
defaults to 1 exactly when the device's serial count equals the number of
(serial-bearing) reported modules — for a single-unit device that means
exactly one module — and the module is then renamed to
"Switch <s> Module 1". -/
theorem C9_slot_default :
    ∀ (allcards : List (String × CardDetail)) (is_multiple : Bool)
      (total_serial num_modules : Nat) (m : ApiModule),
      dictLookup allcards m.serialNumber = none →
      extract_slot_or_module_number m.name = none →
      (if ¬ is_multiple then some "1" else extract_chassis_number m.name).isSome = true →
      ((transform_module allcards is_multiple total_serial num_modules m).slotnumber
          = (if total_serial = num_modules then some "1" else m.slotnumber))
      ∧ (total_serial = num_modules →
          (transform_module allcards is_multiple total_serial num_modules m).name
            = "Switch "
              ++ ((if ¬ is_multiple then some "1" else extract_chassis_number m.name).getD "")
              ++ " Module 1") := by
  intro allcards is_multiple total_serial num_modules m hlook hslot hsw
  obtain ⟨swv, hswv⟩ := Option.isSome_iff_exists.mp hsw
  have hswv2 : (if is_multiple = false then some "1" else extract_chassis_number m.name)
      = some swv := by simpa using hswv
  have hgetd : (if ¬ is_multiple = true then some "1" else extract_chassis_number m.name).getD ""
      = swv := by
    rw [hswv]
    rfl
  by_cases heq : total_serial = num_modules
  · constructor
    · simp [transform_module, hlook, hslot, hswv2, heq]
    · intro _
      rw [hgetd]
      simp [transform_module, hlook, hslot, hswv2, heq]
      rw [String.append_assoc]
      have hlit : (" Module " ++ "1" : String) = " Module 1" := by decide
      rw [hlit]
  · constructor
    · simp [transform_module, hlook, hslot, hswv2, heq]
    · intro h
      exact absurd h heq

/-- A single-unit device's only module with no position patterns in its name. -/
def modC9single : ApiModule :=
  { name := "Fixed Uplink Carrier"
    serialNumber := "WXYZ5678"
    switchnumber := none
    slotnumber := none
    dnac_name := none }

/-- C9 witness: the amended rule at a single-unit device with exactly one
module — slot defaults to 1 and the module is renamed. -/
theorem C9_slot_default_witness :
    ((transform_module [] false 1 1 modC9single).slotnumber
        = (if (1 : Nat) = 1 then some "1" else modC9single.slotnumber))
    ∧ ((1 : Nat) = 1 →
        (transform_module [] false 1 1 modC9single).name
          = "Switch "
            ++ ((if ¬ false then some "1" else extract_chassis_number modC9single.name).getD "")
            ++ " Module 1") :=
  C9_slot_default [] false 1 1 modC9single (by decide) (by decide) (by decide)

/-- A failing required-field check makes check_required fail and record the
message naming the field. -/
theorem check_required_fail (sp : Prototype) (st : Bool × List VMessage) (f : String)
    (hf : f ∈ requiredFields) (ht : fieldTruthy sp f = false) :
    (check_required sp st).1 = false
    ∧ VMessage.missingRequiredField sp.instance_uuid sp.serial f ∈ (check_required sp st).2 := by
  obtain ⟨l1, l2, hsplit⟩ := List.append_of_mem hf
  unfold check_required
  rw [hsplit, List.foldl_append, List.foldl_cons]
  have hstep : (checkWhen (¬ fieldTruthy sp f)
      (VMessage.missingRequiredField sp.instance_uuid sp.serial f)
      (List.foldl (fun st f =>
        checkWhen (¬ fieldTruthy sp f)
          (VMessage.missingRequiredField sp.instance_uuid sp.serial f) st) st l1))
      = logFailure (List.foldl (fun st f =>
        checkWhen (¬ fieldTruthy sp f)
          (VMessage.missingRequiredField sp.instance_uuid sp.serial f) st) st l1)
        (VMessage.missingRequiredField sp.instance_uuid sp.serial f) := by
    simp [checkWhen, ht]
  rw [hstep]
  constructor
  · exact foldl_fst_false (fun st _b hb => checkWhen_fst_false _ _ st hb) l2 _ rfl
  · exact foldl_mem (fun st _b y hy => checkWhen_mem _ _ st y hy) l2 _ _
      (logFailure_mem_self _ _)

/-- A same-stack prototype with a missing required field makes the whole
checkOne pass fail and record the message. -/
theorem checkOne_fail (db : List Prototype) (inv : Inventory) (am : Bool)
    (st : Bool × List VMessage) (sp : Prototype) (f : String)
    (hf : f ∈ requiredFields) (ht : fieldTruthy sp f = false) :
    (checkOne db inv am st sp).1 = false
    ∧ VMessage.missingRequiredField sp.instance_uuid sp.serial f ∈ (checkOne db inv am st sp).2 := by
  have hr := check_required_fail sp (check_related sp st) f hf ht
  unfold checkOne
  split
  · exact ⟨check_module_bays_fst _ _ _
      (check_interfaces_fst _ _ _
        (check_primary_ip_fst _ _ _
          (check_stack_fst _ _ _ _ hr.1))),
      check_module_bays_mem _ _ _ _
        (check_interfaces_mem _ _ _ _
          (check_primary_ip_mem _ _ _ _
            (check_stack_mem _ _ _ _ _ hr.2)))⟩
  · exact ⟨check_primary_ip_fst _ _ _ (check_stack_fst _ _ _ _ hr.1),
      check_primary_ip_mem _ _ _ _ (check_stack_mem _ _ _ _ _ hr.2)⟩

/-- validate_prototype fails, naming the field, whenever any prototype that
shares the instance_uuid has a falsy required field. -/
theorem validate_prototype_fail (db : List Prototype) (inv : Inventory) (p : Prototype)
    (msgs : List VMessage) (am : Bool) (q : Prototype) (f : String)
    (hq : q ∈ db) (huuid : q.instance_uuid = p.instance_uuid)
    (hf : f ∈ requiredFields) (ht : fieldTruthy q f = false) :
    (validate_prototype db inv p msgs am).1 = false
    ∧ VMessage.missingRequiredField q.instance_uuid q.serial f
        ∈ (validate_prototype db inv p msgs am).2 := by
  have hqs : q ∈ db.filter (fun r => r.instance_uuid == p.instance_uuid) :=
    List.mem_filter.mpr ⟨hq, by simp [huuid]⟩
  obtain ⟨l1, l2, hsplit⟩ := List.append_of_mem hqs
  unfold validate_prototype
  rw [hsplit, List.foldl_append, List.foldl_cons]
  have hc := checkOne_fail db inv am (List.foldl (checkOne db inv am) (true, msgs) l1) q f hf ht
  constructor
  · exact foldl_fst_false (fun st sp hb => checkOne_fst db inv am st sp hb) l2 _ hc.1
  · exact foldl_mem (fun st sp y hy => checkOne_mem db inv am st sp y hy) l2 _ _ hc.2

/-- C4: when any prototype sharing the selected prototype's instance_uuid has
a falsy required field, pre-validation fails naming that field, the selected
prototype's sync_status is (re)set to Discovered, and the prototype is
skipped: no inventory device is created or updated in that pass. -/
theorem C4_required_field_gate :
    ∀ (ops : RepoOps) (st : EngineState) (key : String × String) (p q : Prototype) (f : String),
      importSelect st key = some p →
      q ∈ st.db → q.instance_uuid = p.instance_uuid →
      f ∈ requiredFields → fieldTruthy q f = false →
      (importOne ops st key).db
          = replacePrototype st.db { p with sync_status := SyncStatus.discovered }
      ∧ (importOne ops st key).inv.devices = st.inv.devices
      ∧ VMessage.missingRequiredField q.instance_uuid q.serial f ∈ (importOne ops st key).msgs := by
  intro ops st key p q f hfind hq huuid hf ht
  have hval := validate_prototype_fail st.db (clean_prototype_interfaces st.db st.inv p) p
    st.msgs false q f hq huuid hf ht
  have hio : importOne ops st key =
      { db := replacePrototype st.db { p with sync_status := SyncStatus.discovered }
        inv := clean_prototype_interfaces st.db st.inv p
        msgs := (validate_prototype st.db (clean_prototype_interfaces st.db st.inv p) p
          st.msgs false).2 } := by
    unfold importOne
    rw [hfind]
    show importBody ops st p = _
    unfold importBody importPre
    rw [if_pos (by simp [hval.1])]
  rw [hio]
  exact ⟨rfl, rfl, hval.2⟩

/-- A stored prototype with no site, for the C4 witness. -/
def pC4 : Prototype :=
  { oldC5 with
    instance_uuid := "W1", serial := "SW1", site := none,
    sync_status := SyncStatus.discovered }

/-- Inert repository operations for witnesses. -/
def opsId : RepoOps :=
  { createDevice := fun inv _ => (0, inv)
    updateDevice := fun inv _ _ => inv
    writeComponents := fun inv _ _ => inv }

/-- The engine state holding only pC4. -/
def stC4 : EngineState :=
  { db := [pC4]
    inv := { devices := [], interfaces := [], moduleBays := [] }
    msgs := [] }

/-- C4 witness: the gate at the concrete prototype missing its site. -/
theorem C4_required_field_gate_witness :
    (importOne opsId stC4 ("W1", "SW1")).db
        = replacePrototype stC4.db { pC4 with sync_status := SyncStatus.discovered }
    ∧ (importOne opsId stC4 ("W1", "SW1")).inv.devices = stC4.inv.devices
    ∧ VMessage.missingRequiredField pC4.instance_uuid pC4.serial "site"
        ∈ (importOne opsId stC4 ("W1", "SW1")).msgs :=
  C4_required_field_gate opsId stC4 ("W1", "SW1") pC4 pC4 "site"
    (by decide) (by decide) rfl (by decide) (by decide)

/-- Every entry of replacePrototype db p is either p itself or an untouched
entry of db whose key differs from p's. -/
theorem mem_replacePrototype (db : List Prototype) (p r : Prototype)
    (h : r ∈ replacePrototype db p) :
    r = p ∨ (r ∈ db
      ∧ (r.instance_uuid == p.instance_uuid && r.serial == p.serial) = false) := by
  obtain ⟨x, hx, hfx⟩ := List.mem_map.mp h
  by_cases hc : (x.instance_uuid == p.instance_uuid && x.serial == p.serial) = true
  · left
    rw [← hfx]
    simp [hc]
  · right
    have hxr : x = r := by
      rw [← hfx]
      simp [hc]
    subst hxr
    exact ⟨hx, by simpa using hc⟩

/-- Case analysis of the import body's effect on the prototype table: every
entry is untouched, or is the selected prototype saved as Discovered after a
failed pre-validation, saved as Imported (importP1) after both the
pre-validation and the post-validation on the written state (importPost)
passed, or saved back as Discovered after a failed post-validation. -/
theorem importOne_db_mem (ops : RepoOps) (st : EngineState) (key : String × String) :
    ∀ r ∈ (importOne ops st key).db,
      r ∈ st.db
      ∨ ∃ p, importSelect st key = some p
          ∧ ((r = { p with sync_status := SyncStatus.discovered }
                ∧ (importPre st p).1 = false)
            ∨ (r = importP1 ops st p
                ∧ (importPre st p).1 = true
                ∧ (importPost ops st p).1 = true)
            ∨ (r = { importP1 ops st p with sync_status := SyncStatus.discovered })) := by
  intro r hr
  unfold importOne at hr
  cases hfind : importSelect st key with
  | none =>
    rw [hfind] at hr
    exact Or.inl hr
  | some p =>
    rw [hfind] at hr
    have hr2 : r ∈ (importBody ops st p).db := hr
    unfold importBody at hr2
    by_cases hpre : (importPre st p).1 = true
    · rw [if_neg (fun hc => hc hpre)] at hr2
      by_cases hpost : (importPost ops st p).1 = true
      · rw [if_neg (fun hc => hc hpost)] at hr2
        rcases mem_replacePrototype _ _ _ hr2 with h1 | ⟨hin, _⟩
        · exact Or.inr ⟨p, rfl, Or.inr (Or.inl ⟨h1, hpre, hpost⟩)⟩
        · exact Or.inl hin
      · rw [if_pos hpost] at hr2
        rcases mem_replacePrototype _ _ _ hr2 with h1 | ⟨hin1, hkey1⟩
        · exact Or.inr ⟨p, rfl, Or.inr (Or.inr h1)⟩
        · rcases mem_replacePrototype _ _ _ hin1 with h2 | ⟨hin2, _⟩
          · exfalso
            rw [h2] at hkey1
            simp [importP1] at hkey1
          · exact Or.inl hin2
    · rw [if_pos hpre] at hr2
      rcases mem_replacePrototype _ _ _ hr2 with h1 | ⟨hin, _⟩
      · refine Or.inr ⟨p, rfl, Or.inl ⟨h1, ?_⟩⟩
        cases hb : (importPre st p).1
        · rfl
        · exact absurd hb hpre
      · exact Or.inl hin

/-- A stored Imported prototype for the C1 counterexample. -/
def pC1 : Prototype :=
  { oldC5 with
    instance_uuid := "C1U", serial := "C1S", sync_status := SyncStatus.imported }

/-- A fresh fetch of pC1's key, for the C1 counterexample. -/
def inpC1 : ProtoInput :=
  { inpBare with
    toSplitUnit :=
      { inpBare.toSplitUnit with
        toRawDevice :=
          { inpBare.toRawDevice with
            id := "C1U", instanceUuid := "C1U", serialNumber := "C1S" } } }

/-- C1 counterexample: a prototype stored as Imported is regressed to
Discovered by the fetch-pass upsert of its own key, with no validation
involved — so the fetch-pass upsert does change sync_status, and
Imported→Discovered does not happen only on validation failure. -/
theorem C1_counterexample :
    pC1.sync_status = SyncStatus.imported
    ∧ ((process_prototype qEmpty ctl0 [pC1] inpC1).1.map
        (fun r => (r.instance_uuid, r.serial, r.sync_status)))
        = [("C1U", "C1S", SyncStatus.discovered)]
    ∧ (process_prototype qEmpty ctl0 [pC1] inpC1).2.sync_status
        = SyncStatus.discovered := by
  refine ⟨by decide, by decide, by decide⟩

/-- C1 amended: the sync_status state machine of the engine.  (1) The
fetch-pass upsert always saves the prototype with status Discovered — this
resurrects a re-appearing Deleted key but equally regresses an Imported
prototype on every re-fetch — and leaves prototypes with other keys
untouched.  (2) The import pass never produces Deleted; a prototype row it
changes ends Discovered or Imported, and ends Imported only when the
pre-validation passed AND the post-import validation — run on the written
prototype table (the selected prototype saved as Imported with its matching
device) and the written inventory — passed too; when that post-validation
fails, or the pre-validation fails, the selected prototype's row ends
Discovered (the exact final table is given).  (3) The deletion detector is
the only operation producing Deleted, and it deletes exactly the
controller's prototypes whose key is absent from the fresh pass. -/
theorem C1_status_machine :
    (∀ (q : Queries) (ctl : SdnControllerCfg) (db : List Prototype) (inp : ProtoInput),
      (process_prototype q ctl db inp).2.sync_status = SyncStatus.discovered)
    ∧ (∀ (q : Queries) (ctl : SdnControllerCfg) (db : List Prototype) (inp : ProtoInput)
        (r : Prototype),
        r ∈ (process_prototype q ctl db inp).1 →
        r.instance_uuid ≠ inp.instanceUuid ∨ r.serial ≠ inp.serialNumber →
        r ∈ db)
    ∧ (∀ (ops : RepoOps) (st : EngineState) (key : String × String) (r : Prototype),
        r ∈ (importOne ops st key).db → r.sync_status = SyncStatus.deleted → r ∈ st.db)
    ∧ (∀ (ops : RepoOps) (st : EngineState) (key : String × String) (r : Prototype),
        r ∈ (importOne ops st key).db → r ∉ st.db →
        r.sync_status = SyncStatus.discovered ∨ r.sync_status = SyncStatus.imported)
    ∧ (∀ (ops : RepoOps) (st : EngineState) (key : String × String) (r : Prototype),
        r ∈ (importOne ops st key).db → r ∉ st.db →
        r.sync_status = SyncStatus.imported →
        ∃ p, importSelect st key = some p
          ∧ (validate_prototype st.db (clean_prototype_interfaces st.db st.inv p) p
              st.msgs false).1 = true
          ∧ r = importP1 ops st p
          ∧ (validate_prototype (replacePrototype st.db (importP1 ops st p))
              (importInv3 ops st p) (importP1 ops st p)
              (validate_prototype st.db (clean_prototype_interfaces st.db st.inv p) p
                st.msgs false).2 true).1 = true)
    ∧ (∀ (ops : RepoOps) (st : EngineState) (key : String × String) (p : Prototype),
        importSelect st key = some p →
        (validate_prototype st.db (clean_prototype_interfaces st.db st.inv p) p
          st.msgs false).1 = true →
        (validate_prototype (replacePrototype st.db (importP1 ops st p))
          (importInv3 ops st p) (importP1 ops st p)
          (validate_prototype st.db (clean_prototype_interfaces st.db st.inv p) p
            st.msgs false).2 true).1 = false →
        (importOne ops st key).db
          = replacePrototype (replacePrototype st.db (importP1 ops st p))
              { importP1 ops st p with sync_status := SyncStatus.discovered })
    ∧ (∀ (ops : RepoOps) (st : EngineState) (key : String × String) (p : Prototype),
        importSelect st key = some p →
        (validate_prototype st.db (clean_prototype_interfaces st.db st.inv p) p
          st.msgs false).1 = false →
        (importOne ops st key).db
          = replacePrototype st.db { p with sync_status := SyncStatus.discovered })
    ∧ (∀ (ctl : Nat) (keys : List (String × String)) (db : List Prototype) (r : Prototype),
        r ∈ check_for_deleted_devices ctl keys db → r ∉ db →
        r.sync_status = SyncStatus.deleted ∧ r.sdn_controller = ctl
          ∧ keys.contains (r.instance_uuid, r.serial) = false) := by
  refine ⟨?_, ?_, ?_, ?_, ?_, ?_, ?_, ?_⟩
  · -- the upsert always saves status Discovered
    intro q ctl db inp
    have hc : (build_candidate q ctl inp).sync_status = SyncStatus.discovered := rfl
    unfold process_prototype upsert_prototype
    cases h : List.find? (fun p =>
        p.instance_uuid == (build_candidate q ctl inp).instance_uuid
        && p.serial == (build_candidate q ctl inp).serial) db with
    | none => exact hc
    | some old => exact hc
  · -- the upsert leaves other keys untouched
    intro q ctl db inp r hr hne
    have hu : (build_candidate q ctl inp).instance_uuid = inp.instanceUuid := rfl
    have hs : (build_candidate q ctl inp).serial = inp.serialNumber := rfl
    unfold process_prototype upsert_prototype at hr
    cases h : List.find? (fun p =>
        p.instance_uuid == (build_candidate q ctl inp).instance_uuid
        && p.serial == (build_candidate q ctl inp).serial) db with
    | none =>
      rw [h] at hr
      simp only [] at hr
      rcases List.mem_append.mp hr with hin | hconsm
      · exact hin
      · exfalso
        have : r = build_candidate q ctl inp := by simpa using hconsm
        rw [this] at hne
        rcases hne with h1 | h1
        · exact h1 hu
        · exact h1 hs
    | some old =>
      rw [h] at hr
      simp only [] at hr
      obtain ⟨x, hx, hfx⟩ := List.mem_map.mp hr
      by_cases hcx : (x.instance_uuid == (build_candidate q ctl inp).instance_uuid
          && x.serial == (build_candidate q ctl inp).serial) = true
      · exfalso
        rw [if_pos hcx] at hfx
        rw [← hfx] at hne
        rcases hne with h1 | h1
        · exact h1 hu
        · exact h1 hs
      · rw [if_neg hcx] at hfx
        rw [← hfx]
        exact hx
  · -- the import pass never produces Deleted
    intro ops st key r hr hdel
    rcases importOne_db_mem ops st key r hr with hin | ⟨p, _, hcase⟩
    · exact hin
    · exfalso
      rcases hcase with ⟨h1, _⟩ | ⟨h1, _, _⟩ | h1
      · rw [h1] at hdel
        exact absurd hdel (by simp)
      · rw [h1] at hdel
        exact absurd hdel (by simp [importP1])
      · rw [h1] at hdel
        exact absurd hdel (by simp [importP1])
  · -- changed rows end Discovered or Imported
    intro ops st key r hr hnew
    rcases importOne_db_mem ops st key r hr with hin | ⟨p, _, hcase⟩
    · exact absurd hin hnew
    · rcases hcase with ⟨h1, _⟩ | ⟨h1, _, _⟩ | h1
      · exact Or.inl (by rw [h1])
      · exact Or.inr (by rw [h1]; rfl)
      · exact Or.inl (by rw [h1])
  · -- Imported only when pre- and post-validation on the written state pass
    intro ops st key r hr hnew himp
    rcases importOne_db_mem ops st key r hr with hin | ⟨p, hfind, hcase⟩
    · exact absurd hin hnew
    · rcases hcase with ⟨h1, _⟩ | ⟨h1, hpre, hpost⟩ | h1
      · exfalso
        rw [h1] at himp
        exact absurd himp (by simp)
      · exact ⟨p, hfind, hpre, h1, hpost⟩
      · exfalso
        rw [h1] at himp
        exact absurd himp (by simp [importP1])
  · -- post-validation failure: the final table holds the row as Discovered
    intro ops st key p hfind hpre hpost
    have hpre2 : (importPre st p).1 = true := hpre
    have hpost2 : (importPost ops st p).1 = false := hpost
    unfold importOne
    rw [hfind]
    show (importBody ops st p).db = _
    unfold importBody
    rw [if_neg (fun hc => hc hpre2), if_pos (by simp [hpost2])]
  · -- pre-validation failure: the final table holds the row as Discovered
    intro ops st key p hfind hpre
    have hpre2 : (importPre st p).1 = false := hpre
    unfold importOne
    rw [hfind]
    show (importBody ops st p).db = _
    unfold importBody
    rw [if_pos (by simp [hpre2])]
  · -- the deletion detector deletes exactly the controller's absent keys
    intro ctl keys db r hr hnew
    unfold check_for_deleted_devices at hr
    obtain ⟨x, hx, hfx⟩ := List.mem_map.mp hr
    by_cases hcx : (x.sdn_controller == ctl
        ∧ ¬ keys.contains (x.instance_uuid, x.serial))
    · rw [if_pos hcx] at hfx
      rw [← hfx]
      refine ⟨rfl, by simpa using hcx.1, ?_⟩
      simpa using hcx.2
    · exfalso
      rw [if_neg hcx] at hfx
      rw [hfx] at hx
      exact hnew hx

/-- A fully populated stored prototype (no matching device yet) whose import
succeeds end to end, for the C1 witness. -/
def pV : Prototype :=
  { oldC5 with instance_uuid := "V1", serial := "SV1" }

/-- Engine state in which pV's pre- and post-import validations both pass. -/
def stV5 : EngineState :=
  { db := [pV]
    inv := { devices := [], interfaces := [], moduleBays := [] }
    msgs := [] }

/-- Engine state whose inventory carries a module bay on the created device
that the controller does not report, so pV's post-import validation fails. -/
def stV6 : EngineState :=
  { db := [pV]
    inv := { devices := [], interfaces := [], moduleBays := [(0, "Slot 1")] }
    msgs := [] }

/-- C1 witness: the Imported clause applied at the concrete imported row of
stV5 — yielding the selected prototype, its passing pre-validation, and the
passing post-import validation on the concretely written table and
inventory — and the post-validation-failure clause applied at stV6, where
the unreported module bay fails the post-validation and the final table is
exactly the doubly-replaced one holding the row as Discovered. -/
theorem C1_status_machine_witness :
    (∃ p, importSelect stV5 ("V1", "SV1") = some p
      ∧ (validate_prototype stV5.db (clean_prototype_interfaces stV5.db stV5.inv p) p
          stV5.msgs false).1 = true
      ∧ importP1 opsId stV5 pV = importP1 opsId stV5 p
      ∧ (validate_prototype (replacePrototype stV5.db (importP1 opsId stV5 p))
          (importInv3 opsId stV5 p) (importP1 opsId stV5 p)
          (validate_prototype stV5.db (clean_prototype_interfaces stV5.db stV5.inv p) p
            stV5.msgs false).2 true).1 = true)
    ∧ (importOne opsId stV6 ("V1", "SV1")).db
        = replacePrototype (replacePrototype stV6.db (importP1 opsId stV6 pV))
            { importP1 opsId stV6 pV with sync_status := SyncStatus.discovered } :=
  ⟨C1_status_machine.2.2.2.2.1 opsId stV5 ("V1", "SV1") (importP1 opsId stV5 pV)
      (by decide) (by decide) (by decide),
   C1_status_machine.2.2.2.2.2.1 opsId stV6 ("V1", "SV1") pV
      (by decide) (by decide) (by decide)⟩

end SdnCtl
